import Mathlib

/-!
Verification development for the learning-analytics hierarchy component
(`analytics-component.js`).  The JavaScript source is shallowly embedded:
JS numbers are modelled as `ℚ`, with `Option ℚ` at the places where the
source can produce `NaN` (`none` = `NaN`); JS falsy field values
(`undefined` / `null` / `0` / `""`) are modelled as `none` of an `Option`
field; JS `Map`s (insertion-ordered, keyed) are modelled as association
lists that append on first insertion; the stable ascending `Array.sort`
with a numeric comparator is modelled as a stable insertion sort.
-/

set_option maxRecDepth 4000

/-! ## Decimal digit strings (model of JS number-to-string and `Number()`). -/

/-- Decimal digit character for a digit value 0–9 (values ≥ 9 clamp to the
digit 9; the functions below only apply it to `m % 10` or to `m < 10`). -/
def digitChar (n : Nat) : Char :=
  if n = 0 then '0' else if n = 1 then '1' else if n = 2 then '2'
  else if n = 3 then '3' else if n = 4 then '4' else if n = 5 then '5'
  else if n = 6 then '6' else if n = 7 then '7' else if n = 8 then '8' else '9'

/-- Numeric value of a digit character (0 on non-digits, which the callers
exclude via `isDigitC`). -/
def digitVal (c : Char) : Nat :=
  if c = '1' then 1 else if c = '2' then 2 else if c = '3' then 3
  else if c = '4' then 4 else if c = '5' then 5 else if c = '6' then 6
  else if c = '7' then 7 else if c = '8' then 8 else if c = '9' then 9 else 0

/-- Value of a big-endian digit string, as folded by positional reading. -/
def digitsVal (cs : List Char) : Nat := cs.foldl (fun a c => a * 10 + digitVal c) 0

/-- Test for a decimal digit character. -/
def isDigitC (c : Char) : Bool := decide ('0' ≤ c ∧ c ≤ '9')

/-- Fuel-driven big-endian decimal rendering of a natural number
(structural recursion so that concrete instances reduce). -/
def natToCharsGo : Nat → Nat → List Char
  | 0, m => [digitChar (m % 10)]
  | fuel + 1, m => if m < 10 then [digitChar m] else natToCharsGo fuel (m / 10) ++ [digitChar (m % 10)]

/-- Decimal rendering of a natural number; models JS `Number.prototype.toString`
on the nonnegative integers produced by the duration formatter. -/
def natToChars (n : Nat) : List Char := natToCharsGo n n

/-- Model of the JS template-literal / `String(...)` conversion of a number
that is a nonnegative integer. -/
def natStr (n : Nat) : String := ⟨natToChars n⟩

/-- Model of `v.toString().padStart(2, "0")` for a nonnegative integer `v`. -/
def pad2 (n : Nat) : List Char :=
  if (natToChars n).length < 2 then '0' :: natToChars n else natToChars n

/-- Split a character list at every occurrence of `sep`; model of the JS
`String.prototype.split` with a single-character separator. -/
def splitOnChar (sep : Char) : List Char → List (List Char)
  | [] => [[]]
  | a :: rest =>
    if a = sep then [] :: splitOnChar sep rest
    else
      match splitOnChar sep rest with
      | [] => [[a]]
      | h :: t => (a :: h) :: t

/-- Model of JS `Number()` on an unsigned decimal numeral with an optional
fractional part ('none' models `NaN`). -/
def jsNumberCore (cs : List Char) : Option ℚ :=
  match splitOnChar '.' cs with
  | [w] => if w ≠ [] ∧ w.all isDigitC then some (digitsVal w : ℚ) else none
  | [w, f] =>
    if (w ++ f) ≠ [] ∧ (w ++ f).all isDigitC then
      some ((digitsVal w : ℚ) + (digitsVal f : ℚ) / 10 ^ f.length)
    else none
  | _ => none

/-- Model of JS `Number()` on the character list of a string: the empty
string converts to `0`, a leading minus sign negates, otherwise a plain
decimal numeral; `none` models `NaN`. -/
def jsNumberChars : List Char → Option ℚ
  | [] => some 0
  | a :: rest =>
    if a = '-' then (jsNumberCore rest).map (fun q => -q)
    else jsNumberCore (a :: rest)

/-- Model of JS `Number()` on a string. -/
def jsNumber (s : String) : Option ℚ := jsNumberChars s.data

/-- Source: `parseDurationToSeconds = (d) => { if (!d || typeof d !== 'string')
return 0; const p = d.split(':').map(Number); return p.length !== 3 ? 0 :
p[0] * 3600 + p[1] * 60 + p[2]; }`.  The argument is `none` for a missing or
non-string (or otherwise falsy) value; the result is `none` exactly when the
JS expression produces `NaN`. -/
def parseDurationToSeconds : Option String → Option ℚ
  | none => some 0
  | some d =>
    if d.data = [] then some 0
    else
      let p := (splitOnChar ':' d.data).map jsNumberChars
      if p.length ≠ 3 then some 0
      else (p.getD 0 none).bind fun h => (p.getD 1 none).bind fun m =>
        (p.getD 2 none).map fun s => h * 3600 + m * 60 + s

/-- Structured hours/minutes/seconds duration value; absent sub-fields are
modelled as `0`, matching `(t.hours || 0)` etc. in the source. -/
structure TimeObj where
  hours : ℚ
  minutes : ℚ
  seconds : ℚ
  deriving DecidableEq

/-- A duration field value: either a string or a structured object. -/
inductive TimeVal where
  | str (s : String)
  | obj (t : TimeObj)
  deriving DecidableEq

/-- Source: `parseTimeObjectToSeconds = (t) => { if (!t) return 0; if (typeof
t === 'string') return parseDurationToSeconds(t); return (t.hours || 0) * 3600
+ (t.minutes || 0) * 60 + (t.seconds || 0); }`. -/
def parseTimeObjectToSeconds : Option TimeVal → Option ℚ
  | none => some 0
  | some (.str s) => parseDurationToSeconds (some s)
  | some (.obj t) => some (t.hours * 3600 + t.minutes * 60 + t.seconds)

/-- JS truthiness of a duration field (`r.UnitTimeSpent` in a filter):
absent is falsy, a string is truthy iff nonempty, an object is truthy. -/
def timeTruthy : Option TimeVal → Bool
  | none => false
  | some (.str s) => decide (s ≠ "")
  | some (.obj _) => true

/-- JS remainder `x % y` for a nonnegative dividend (the only case the
duration formatter uses). -/
def jsMod (x y : ℚ) : ℚ := x - y * ⌊x / y⌋

/-- Source: `formatSecondsToDuration = (s) => { if (isNaN(s) || s < 0) return
"00:00:00"; const h = Math.floor(s / 3600); const m = Math.floor((s % 3600) /
60); const sec = Math.floor(s % 60); return [h, m, sec].map(v =>
v.toString().padStart(2, '0')).join(':'); }`; `none` models `NaN`. -/
def formatSecondsToDuration : Option ℚ → String
  | none => "00:00:00"
  | some s =>
    if s < 0 then "00:00:00"
    else ⟨pad2 (⌊s / 3600⌋).toNat ++ ':' :: pad2 (⌊jsMod s 3600 / 60⌋).toNat ++ ':' :: pad2 (⌊jsMod s 60⌋).toNat⟩

/-- Source: `truncateToDecimals = (num, d = 2) => { const n = parseFloat(num);
if (isNaN(n)) return 0; return parseFloat(n.toFixed(d)); }`.  The argument is
`none` when `parseFloat` yields `NaN` (missing or non-numeric field).
`Number.prototype.toFixed(d)` renders the integer `n` for which `n / 10^d - x`
is closest to zero, picking the larger `n` on ties (ECMA-262), i.e.
`⌊x * 10^d + 1/2⌋`; `parseFloat` then reads that numeral back. -/
def truncateToDecimals (num : Option ℚ) (d : Nat) : ℚ :=
  match num with
  | none => 0
  | some n => (⌊n * 10 ^ d + 1 / 2⌋ : ℚ) / 10 ^ d

/-- Source: `calculateAverage = (arr) => { if (!arr || arr.length === 0)
return 0; const sum = arr.reduce((acc, val) => acc + val, 0); return sum /
arr.length; }`. -/
def calculateAverage (l : List ℚ) : ℚ :=
  if l.length = 0 then 0 else l.sum / l.length

/-- JS `reduce((sum, x) => sum + x, 0)` over values that may be `NaN`
(`none`); `NaN` is absorbing. -/
def optSum (l : List (Option ℚ)) : Option ℚ :=
  l.foldl (fun acc x =>
    match acc, x with
    | some a, some b => some (a + b)
    | none, _ => none
    | some _, none => none) (some 0)

/-- The `calculateAverage` of values that may be `NaN`. -/
def calculateAverageOpt (l : List (Option ℚ)) : Option ℚ :=
  if l.length = 0 then some 0 else (optSum l).map (fun s => s / l.length)

/-- JS `a > b` on numbers that may be `NaN`: any comparison with `NaN` is
false. -/
def jsGtB (a b : Option ℚ) : Bool :=
  match a, b with
  | some x, some y => decide (y < x)
  | none, _ => false
  | some _, none => false


/-! ## Input data model.

One flat learning-event record (one element of the JSON array the component
fetches).  Identifier fields that the source tests for JS truthiness are
`Option Nat` with `none` standing for any falsy value; numeric percentage
fields are `Option ℚ` with `none` standing for a missing or non-numeric
value (on which `parseFloat` yields `NaN`). -/

structure FlatRecord where
  ChapterId : Nat
  ChapterNo : ℚ
  ChapterName : String
  UnitId : Option Nat
  UnitNo : ℚ
  UnitName : String
  ActivityTypeId : Option Nat
  ActivityTypeName : String
  SequenceBuilderID : Nat
  ConceptId : Option Nat
  ConceptName : String
  ConceptCategory : String
  ConceptParentId : Option Nat
  ConceptParentName : String
  UserId : Option Nat
  UserFullName : String
  UnitCompletionPercentage : Option ℚ
  UnitAccuracyPercentage : Option ℚ
  UnitTimeSpent : Option TimeVal
  ActivityTypeAccuracyPercentage : Option ℚ
  ActivityTotalAttempts : ℚ
  ConceptAccuracyPercentage : Option ℚ
  deriving DecidableEq

/-- Model of the JS `String(...)` conversion used on id fields: a number
renders in decimal, an absent value renders as the string `"undefined"`. -/
def jsString : Option Nat → String
  | none => "undefined"
  | some n => natStr n

/-! ## Output data model (the built hierarchy). -/

/-- A concept element row of a `performanceByCategory` tree. -/
structure ElementPerf where
  elementId : String
  elementName : String
  accuracy : ℚ
  deriving DecidableEq

/-- A component (parent-concept) node of a `performanceByCategory` tree. -/
structure ComponentPerf where
  componentId : String
  componentName : String
  elements : List ElementPerf
  deriving DecidableEq

/-- A category node of a `performanceByCategory` tree. -/
structure CategoryPerf where
  category : String
  components : List ComponentPerf
  deriving DecidableEq

/-- One activity-performance record of a user. -/
structure ActivityPerf where
  activityName : String
  accuracy : ℚ
  totalAttempts : ℚ
  performanceByCategory : List CategoryPerf
  deriving DecidableEq

/-- A user-in-unit node of the built hierarchy. -/
structure UserOut where
  userId : String
  userName : String
  accuracy : ℚ
  completion : ℚ
  activities : List ActivityPerf
  isStruggling : Bool
  totalTimeSpent : String
  deriving DecidableEq

/-- A unit node of the built hierarchy. -/
structure UnitOut where
  unitId : String
  unitNo : ℚ
  unitName : String
  noOfLearners : Nat
  avgAccuracy : ℚ
  avgTimeSpent : String
  isProblematic : Bool
  users : List UserOut
  deriving DecidableEq

/-- A chapter node of the built hierarchy. -/
structure ChapterOut where
  chapterId : String
  chapterNo : ℚ
  chapterName : String
  units : List UnitOut
  avgAccuracy : ℚ
  completion : ℚ
  deriving DecidableEq

/-- The course root of the built hierarchy. -/
structure CourseOut where
  chapters : List ChapterOut
  noOfLearners : Nat
  avgAccuracy : ℚ
  completion : ℚ
  totalTimeSpent : String
  deriving DecidableEq

/-- Result of `getLearningSystemHierarchy`: either the sentinel object
carrying only a `message` field, or the course hierarchy. -/
inductive HierarchyResult where
  | noData (message : String)
  | course (c : CourseOut)
  deriving DecidableEq

/-! ## Intermediate accumulator state (the nested mutable maps). -/

/-- A concept attached to an activity in the grouping phase. -/
structure ConceptMeta where
  conceptId : String
  conceptName : String
  conceptCategory : String
  deriving DecidableEq

/-- An entry of a unit's `_activitiesMap` (keyed by `SequenceBuilderID`). -/
structure ActivityAcc where
  activityId : String
  activityName : String
  concepts : List ConceptMeta
  deriving DecidableEq

/-- An entry of a unit's `_usersMap` (keyed by `UserId`). -/
structure UserAcc where
  userId : String
  userName : String
  completion : ℚ
  accuracy : ℚ
  totalTimeSpentSeconds : Option ℚ
  activityPerformanceMap : List (String × ActivityPerf)
  deriving DecidableEq

/-- An entry of a chapter's `_unitsMap` (keyed by `UnitId`). -/
structure UnitAcc where
  unitId : String
  unitNo : ℚ
  unitName : String
  activitiesMap : List (Nat × ActivityAcc)
  usersMap : List (Nat × UserAcc)
  deriving DecidableEq

/-- An entry of the top-level `chaptersMap` (keyed by `ChapterId`). -/
structure ChapterAcc where
  chapterId : String
  chapterNo : ℚ
  chapterName : String
  unitsMap : List (Nat × UnitAcc)
  deriving DecidableEq

/-! ## Association-list operations modelling the JS `Map` mutations. -/

/-- JS `if (!m.has(k)) m.set(k, v)` on an insertion-ordered map. -/
def insertIfAbsent {κ ν : Type} [DecidableEq κ] (k : κ) (v : ν) (m : List (κ × ν)) : List (κ × ν) :=
  if m.any (fun p => p.1 = k) then m else m ++ [(k, v)]

/-- Mutate the first element satisfying `p` in place (JS `find` + mutation). -/
def updateFirst {α : Type} (p : α → Bool) (f : α → α) : List α → List α
  | [] => []
  | a :: l => if p a then f a :: l else a :: updateFirst p f l

/-- Mutate the value stored under key `k` in place (JS `m.get(k)` followed by
mutation of the retrieved object). -/
def updateKey {κ ν : Type} [DecidableEq κ] (k : κ) (f : ν → ν) (m : List (κ × ν)) : List (κ × ν) :=
  updateFirst (fun p => decide (p.1 = k)) (fun p => (p.1, f p.2)) m

/-- JS `m.get(k)` on an insertion-ordered map. -/
def lookupKey {κ ν : Type} [DecidableEq κ] (k : κ) (m : List (κ × ν)) : Option ν :=
  (m.find? (fun p => decide (p.1 = k))).map (fun p => p.2)

/-! ## Grouping builder (`getLearningSystemHierarchy`, lines 288–314). -/

/-- Fresh chapter node (source line 291). -/
def newChapter (row : FlatRecord) : ChapterAcc :=
  { chapterId := natStr row.ChapterId, chapterNo := row.ChapterNo,
    chapterName := row.ChapterName, unitsMap := [] }

/-- Fresh unit node (source line 293); `uid` is the truthy `row.UnitId`. -/
def newUnit (row : FlatRecord) (uid : Nat) : UnitAcc :=
  { unitId := natStr uid, unitNo := row.UnitNo, unitName := row.UnitName,
    activitiesMap := [], usersMap := [] }

/-- Fresh activity node (source line 296); its id is the template literal
over the creating row's `UnitId`, `ActivityTypeId`, `SequenceBuilderID`. -/
def newActivity (row : FlatRecord) (uid atId : Nat) : ActivityAcc :=
  { activityId := natStr uid ++ "-" ++ natStr atId ++ "-" ++ natStr row.SequenceBuilderID,
    activityName := row.ActivityTypeName, concepts := [] }

/-- Push the row's concept onto an activity unless already present
(source line 298). -/
def conceptPush (row : FlatRecord) (a : ActivityAcc) : ActivityAcc :=
  match row.ConceptId with
  | none => a
  | some cid =>
    if a.concepts.any (fun c => c.conceptId = natStr cid) then a
    else { a with concepts := a.concepts ++
      [{ conceptId := natStr cid, conceptName := row.ConceptName,
         conceptCategory := row.ConceptCategory }] }

/-- Fresh user node (source line 300); `parseFloat(x) || 0` becomes
`getD 0`, since the only falsy `parseFloat` results are `NaN` and `0`. -/
def newUser (row : FlatRecord) (uid : Nat) : UserAcc :=
  { userId := natStr uid, userName := row.UserFullName,
    completion := row.UnitCompletionPercentage.getD 0,
    accuracy := row.UnitAccuracyPercentage.getD 0,
    totalTimeSpentSeconds := parseTimeObjectToSeconds row.UnitTimeSpent,
    activityPerformanceMap := [] }

/-- Fresh activity-performance record for a user (source line 302); the
trailing `|| 0` of the source is the identity because `truncateToDecimals`
never yields `NaN` and maps `0` to `0`. -/
def newActivityPerf (row : FlatRecord) (act : ActivityAcc) : ActivityPerf :=
  { activityName := act.activityName,
    accuracy := truncateToDecimals row.ActivityTypeAccuracyPercentage 2,
    totalAttempts := row.ActivityTotalAttempts,
    performanceByCategory := [] }

/-- Push a concept element onto a component unless present (source line 311). -/
def elementPushIfAbsent (row : FlatRecord) (cid : Nat) (comp : ComponentPerf) : ComponentPerf :=
  if comp.elements.any (fun e => e.elementId = natStr cid) then comp
  else { comp with elements := comp.elements ++
    [{ elementId := natStr cid, elementName := row.ConceptName,
       accuracy := truncateToDecimals row.ConceptAccuracyPercentage 2 }] }

/-- Update a category for the row's component/element (source lines 308–311). -/
def categoryUpdate (row : FlatRecord) (cid : Nat) (cat : CategoryPerf) : CategoryPerf :=
  let isComp := fun (c : ComponentPerf) => decide (c.componentId = jsString row.ConceptParentId)
  let comps :=
    if cat.components.any (fun c => c.componentId = jsString row.ConceptParentId) then cat.components
    else cat.components ++
      [{ componentId := jsString row.ConceptParentId,
         componentName := row.ConceptParentName, elements := [] }]
  { cat with components := updateFirst isComp (elementPushIfAbsent row cid) comps }

/-- Update an activity-performance tree for the row's concept
(source lines 304–311). -/
def perfTreeUpdate (row : FlatRecord) (cid : Nat) (ap : ActivityPerf) : ActivityPerf :=
  let isCat := fun (c : CategoryPerf) => decide (c.category = row.ConceptCategory)
  let pbc :=
    if ap.performanceByCategory.any (fun c => c.category = row.ConceptCategory) then ap.performanceByCategory
    else ap.performanceByCategory ++ [{ category := row.ConceptCategory, components := [] }]
  { ap with performanceByCategory := updateFirst isCat (categoryUpdate row cid) pbc }

/-- User-related part of one row step (source lines 299–313); `activity` is
the value read from `_activitiesMap` before the concept push, exactly as the
source's `activity` binding. -/
def userStep (row : FlatRecord) (activity : Option ActivityAcc) (u : UnitAcc) : UnitAcc :=
  match row.UserId with
  | none => u
  | some uid =>
    let m1 := insertIfAbsent uid (newUser row uid) u.usersMap
    let m2 :=
      match activity with
      | none => m1
      | some act =>
        updateKey uid (fun user =>
          if user.activityPerformanceMap.any (fun p => p.1 = act.activityId) then user
          else { user with activityPerformanceMap :=
            user.activityPerformanceMap ++ [(act.activityId, newActivityPerf row act)] }) m1
    let m3 :=
      match activity, row.ConceptId with
      | some act, some cid =>
        updateKey uid (fun user =>
          { user with activityPerformanceMap :=
              updateKey act.activityId (perfTreeUpdate row cid) user.activityPerformanceMap }) m2
      | some _, none => m2
      | none, _ => m2
    { u with usersMap := m3 }

/-- Unit-level part of one row step (source lines 296–313); `uid` is the
truthy `row.UnitId` under which this unit is stored. -/
def unitStep (row : FlatRecord) (uid : Nat) (u : UnitAcc) : UnitAcc :=
  let u1 :=
    match row.ActivityTypeId with
    | none => u
    | some atId =>
      if u.activitiesMap.any (fun p => p.1 = row.SequenceBuilderID) then u
      else { u with activitiesMap :=
        u.activitiesMap ++ [(row.SequenceBuilderID, newActivity row uid atId)] }
  let activity := lookupKey row.SequenceBuilderID u1.activitiesMap
  let u2 :=
    match activity, row.ConceptId with
    | some _, some _ =>
      { u1 with activitiesMap := updateKey row.SequenceBuilderID (conceptPush row) u1.activitiesMap }
    | some _, none => u1
    | none, _ => u1
  userStep row activity u2

/-- One iteration of the `for (const row of flatData)` loop
(source lines 290–314). -/
def processRow (m : List (Nat × ChapterAcc)) (row : FlatRecord) : List (Nat × ChapterAcc) :=
  let m1 := insertIfAbsent row.ChapterId (newChapter row) m
  updateKey row.ChapterId (fun chapter =>
    match row.UnitId with
    | none => chapter
    | some uid =>
      let um := insertIfAbsent uid (newUnit row uid) chapter.unitsMap
      { chapter with unitsMap := updateKey uid (unitStep row uid) um }) m1

/-- The grouping pass over the whole input. -/
def buildChaptersMap (flatData : List FlatRecord) : List (Nat × ChapterAcc) :=
  flatData.foldl processRow []

/-! ## Rollup calculator (source lines 315–349). -/

/-- Source line 315: the course-wide average unit time, averaged over the
records having a truthy `UserId` and a truthy `UnitTimeSpent`. -/
def courseAverageTimePerUnit (flatData : List FlatRecord) : Option ℚ :=
  calculateAverageOpt
    ((flatData.filter (fun r => r.UserId.isSome && timeTruthy r.UnitTimeSpent)).map
      (fun r => parseTimeObjectToSeconds r.UnitTimeSpent))

/-- The values of a unit's `_usersMap`, in insertion order. -/
def unitUsers (u : UnitAcc) : List UserAcc := u.usersMap.map (fun p => p.2)

/-- Source line 319: mean time over the unit's users, `0` for no users. -/
def avgUnitTimePerUser (u : UnitAcc) : Option ℚ :=
  if 0 < (unitUsers u).length then
    (optSum ((unitUsers u).map (fun x => x.totalTimeSpentSeconds))).map
      (fun s => s / ((unitUsers u).length : ℚ))
  else some 0

/-- Source lines 320–328: final user record; `avgT` is the containing unit's
average time per user. -/
def finalizeUser (avgT : Option ℚ) (user : UserAcc) : UserOut :=
  { userId := user.userId, userName := user.userName,
    accuracy := user.accuracy, completion := user.completion,
    activities := user.activityPerformanceMap.map (fun p => p.2),
    isStruggling := decide (user.accuracy < 50) && jsGtB user.totalTimeSpentSeconds avgT,
    totalTimeSpent := formatSecondsToDuration user.totalTimeSpentSeconds }

/-- Source line 330: unit average accuracy over its users' nonzero (strictly
positive) accuracies, before truncation. -/
def rawUnitAvgAccuracy (u : UnitAcc) : ℚ :=
  calculateAverage (((unitUsers u).map (fun x => x.accuracy)).filter (fun a => 0 < a))

/-- Source lines 318–338: final unit record. -/
def finalizeUnit (courseAvg : Option ℚ) (u : UnitAcc) : UnitOut :=
  { unitId := u.unitId, unitNo := u.unitNo, unitName := u.unitName,
    noOfLearners := (unitUsers u).length,
    avgAccuracy := truncateToDecimals (some (rawUnitAvgAccuracy u)) 2,
    avgTimeSpent := formatSecondsToDuration (avgUnitTimePerUser u),
    isProblematic := decide (rawUnitAvgAccuracy u < 60) && jsGtB (avgUnitTimePerUser u) courseAvg,
    users := (unitUsers u).map (finalizeUser (avgUnitTimePerUser u)) }

/-- Source line 318: a chapter's units sorted ascending by `unitNo`
(stable sort, modelling `Array.prototype.sort` with comparator
`(a, b) => a.unitNo - b.unitNo`). -/
def sortedUnits (c : ChapterAcc) : List UnitAcc :=
  List.insertionSort (fun a b => a.unitNo ≤ b.unitNo) (c.unitsMap.map (fun p => p.2))

/-- Source lines 316–343: final chapter record; the chapter accuracy and
completion means range over every user of every unit of the chapter. -/
def finalizeChapter (courseAvg : Option ℚ) (c : ChapterAcc) : ChapterOut :=
  { chapterId := c.chapterId, chapterNo := c.chapterNo, chapterName := c.chapterName,
    units := (sortedUnits c).map (finalizeUnit courseAvg),
    avgAccuracy := calculateAverage
      ((sortedUnits c).flatMap (fun u => (unitUsers u).map (fun x => x.accuracy))),
    completion := calculateAverage
      ((sortedUnits c).flatMap (fun u => (unitUsers u).map (fun x => x.completion))) }

/-- Source line 316: chapters sorted ascending by `chapterNo`. -/
def sortedChapters (m : List (Nat × ChapterAcc)) : List ChapterAcc :=
  List.insertionSort (fun a b => a.chapterNo ≤ b.chapterNo) (m.map (fun p => p.2))

/-- Source lines 315–349: the course object built from a nonempty input. -/
def buildCourse (flatData : List FlatRecord) : CourseOut :=
  let courseAvg := courseAverageTimePerUnit flatData
  let chapters := (sortedChapters (buildChaptersMap flatData)).map (finalizeChapter courseAvg)
  let allUserOuts := chapters.flatMap (fun c => c.units.flatMap (fun u => u.users))
  { chapters := chapters,
    noOfLearners := ((flatData.filterMap (fun r => r.UserId)).dedup).length,
    avgAccuracy := truncateToDecimals (some (calculateAverage
      ((chapters.flatMap (fun c => c.units.map (fun u => u.avgAccuracy))).filter
        (fun a => 0 < a)))) 2,
    completion := truncateToDecimals (some (calculateAverage
      (allUserOuts.map (fun u => u.completion)))) 2,
    totalTimeSpent := formatSecondsToDuration
      (optSum (allUserOuts.map (fun u => parseDurationToSeconds (some u.totalTimeSpent)))) }

/-- Source: `getLearningSystemHierarchy` (lines 286–350) on a non-null input
array. -/
def getLearningSystemHierarchy (flatData : List FlatRecord) : HierarchyResult :=
  if flatData.length = 0 then .noData "No data found for the specified criteria."
  else .course (buildCourse flatData)

/-- Source: `getLearningSystemHierarchy` including the `!flatData` (null or
undefined input) guard; `none` models an absent input array. -/
def getLearningSystemHierarchyOpt : Option (List FlatRecord) → HierarchyResult
  | none => .noData "No data found for the specified criteria."
  | some l => getLearningSystemHierarchy l

/-- Total projection of a build result onto a course (dummy course for the
sentinel); lets theorems about built hierarchies avoid an equation
hypothesis naming the course. -/
def theCourse : HierarchyResult → CourseOut
  | .noData _ => { chapters := [], noOfLearners := 0, avgAccuracy := 0, completion := 0, totalTimeSpent := "" }
  | .course c => c

/-- A blank input row: every optional field absent, every number 0. -/
def blankRow : FlatRecord :=
  { ChapterId := 0, ChapterNo := 0, ChapterName := "", UnitId := none, UnitNo := 0,
    UnitName := "", ActivityTypeId := none, ActivityTypeName := "", SequenceBuilderID := 0,
    ConceptId := none, ConceptName := "", ConceptCategory := "", ConceptParentId := none,
    ConceptParentName := "", UserId := none, UserFullName := "",
    UnitCompletionPercentage := none, UnitAccuracyPercentage := none, UnitTimeSpent := none,
    ActivityTypeAccuracyPercentage := none, ActivityTotalAttempts := 0,
    ConceptAccuracyPercentage := none }

def rowA : FlatRecord :=
  { blankRow with
    ChapterId := 1
    ChapterNo := 1
    ChapterName := "Ch1"
    UnitId := some 1
    UnitNo := 1
    UnitName := "U1"
    UserId := some 7
    UserFullName := "u"
    UnitCompletionPercentage := some 100
    UnitAccuracyPercentage := some 80
    UnitTimeSpent := some (.str "00:10:00") }


/-! ## Diagnostic classifier (`renderStudentDiagnosticPanel`, lines 183–203). -/

/-- Source lines 186–197: total attempts and activity count accumulated over
every activity-performance record of the student with id `userId`, scanning
chapters and units in order and taking the first user record matching the id
in each unit. -/
def studentTotals (c : CourseOut) (userId : String) : ℚ × Nat :=
  c.chapters.foldl (fun acc ch =>
    ch.units.foldl (fun acc un =>
      match un.users.find? (fun u => u.userId = userId) with
      | some user => user.activities.foldl (fun acc act => (acc.1 + act.totalAttempts, acc.2 + 1)) acc
      | none => acc) acc) (0, 0)

/-- Source line 199: mean of the student's per-unit accuracy values. -/
def studentAvgAccuracy (c : CourseOut) (userId : String) : ℚ :=
  calculateAverage (c.chapters.flatMap (fun ch => ch.units.flatMap (fun un =>
    (un.users.filter (fun u => u.userId = userId)).map (fun u => u.accuracy))))

/-- Source line 200: `totalAttempts / (activityCount || 1)`. -/
def avgAttemptsPerActivity (c : CourseOut) (userId : String) : ℚ :=
  (studentTotals c userId).1 /
    (if (studentTotals c userId).2 = 0 then 1 else ((studentTotals c userId).2 : ℚ))

/-- Source lines 201–203: the learning-pattern classification, first match
wins. -/
def classifyStudent (c : CourseOut) (userId : String) : String :=
  if 15 < avgAttemptsPerActivity c userId ∧ studentAvgAccuracy c userId < 70 then
    "Persistence without Mastery"
  else if studentAvgAccuracy c userId < 60 then "Knowledge Gap"
  else "Methodical"

/-! ## Concept analysis (`renderConceptAnalysis`, lines 222–249). -/

/-- Accumulated observations for one distinct concept element id. -/
structure ConceptAgg where
  name : String
  accuracies : List ℚ
  attempts : List ℚ
  deriving DecidableEq

/-- Source line 229 inner test: the activity references an element with the
given id somewhere in its category tree. -/
def activityHasElement (elementId : String) (a : ActivityPerf) : Bool :=
  a.performanceByCategory.any (fun c =>
    c.components.any (fun p => p.elements.any (fun e => e.elementId = elementId)))

/-- The (user, element) pairs visited by the nested `forEach` of source
lines 224–231, in iteration order. -/
def conceptObservations (c : CourseOut) : List (UserOut × ElementPerf) :=
  c.chapters.flatMap (fun ch => ch.units.flatMap (fun un => un.users.flatMap (fun user =>
    user.activities.flatMap (fun act => act.performanceByCategory.flatMap (fun cat =>
      cat.components.flatMap (fun comp => comp.elements.map (fun el => (user, el))))))))

/-- Source lines 225–230: fold step of the concept map: create the entry on
first sight, push a strictly positive accuracy, and push the attempts of the
first activity of the observing user whose tree contains the element id. -/
def conceptStep (m : List (String × ConceptAgg)) (obs : UserOut × ElementPerf) : List (String × ConceptAgg) :=
  let m1 := insertIfAbsent obs.2.elementId { name := obs.2.elementName, accuracies := [], attempts := [] } m
  updateKey obs.2.elementId (fun cagg =>
    let cagg1 :=
      if 0 < obs.2.accuracy then { cagg with accuracies := cagg.accuracies ++ [obs.2.accuracy] }
      else cagg
    match obs.1.activities.find? (activityHasElement obs.2.elementId) with
    | some ua => { cagg1 with attempts := cagg1.attempts ++ [ua.totalAttempts] }
    | none => cagg1) m1

/-- One row of the rendered concept ranking. -/
structure ConceptStat where
  name : String
  avgAccuracy : ℚ
  avgAttempts : ℚ
  difficulty : ℚ
  deriving DecidableEq

/-- Source lines 233–237: per-concept statistics; the difficulty index is
`(100 - avgAccuracy) * (avgAttempts > 1 ? avgAttempts : 1.1)`. -/
def conceptStatOf (cagg : ConceptAgg) : ConceptStat :=
  let avgAccuracy := calculateAverage cagg.accuracies
  let avgAttempts := calculateAverage cagg.attempts
  { name := cagg.name, avgAccuracy := avgAccuracy, avgAttempts := avgAttempts,
    difficulty := (100 - avgAccuracy) * (if 1 < avgAttempts then avgAttempts else 11 / 10) }

/-- Source lines 222–238: the concept ranking of a built hierarchy, sorted
descending by difficulty (stable sort modelling `sort((a, b) =>
b.difficulty - a.difficulty)`). -/
def renderConceptAnalysis (c : CourseOut) : List ConceptStat :=
  List.insertionSort (fun a b => b.difficulty ≤ a.difficulty)
    (((conceptObservations c).foldl conceptStep []).map (fun p => conceptStatOf p.2))

/-! ## Concrete example inputs. -/

/-- Scenario B, first row: chapter 1 / unit 1 / user 1, accuracy 30,
time "02:00:00". -/
def rowB1 : FlatRecord :=
  { blankRow with
    ChapterId := 1
    ChapterNo := 1
    ChapterName := "Ch1"
    UnitId := some 1
    UnitNo := 1
    UnitName := "U1"
    UserId := some 1
    UserFullName := "student"
    UnitCompletionPercentage := some 50
    UnitAccuracyPercentage := some 30
    UnitTimeSpent := some (.str "02:00:00") }

/-- Scenario B, second row: same chapter, unit and user. -/
def rowB2 : FlatRecord :=
  { rowB1 with
    UnitAccuracyPercentage := some 80
    UnitTimeSpent := none }

/-- Filler row in another unit making the course-average unit time come out
at "00:30:00" (1800 seconds): three users with time "00:00:00". -/
def rowBFill (i : Nat) : FlatRecord :=
  { blankRow with
    ChapterId := 1
    ChapterNo := 1
    ChapterName := "Ch1"
    UnitId := some 2
    UnitNo := 2
    UnitName := "U2"
    UserId := some (i + 2)
    UserFullName := "other"
    UnitCompletionPercentage := some 100
    UnitAccuracyPercentage := some 80
    UnitTimeSpent := some (.str "00:00:00") }

/-- The Scenario B input: two rows for the same chapter/unit/user (one with
accuracy 30 and time "02:00:00"), plus filler rows in a second unit that put
the course-average unit time at exactly "00:30:00". -/
def scenarioB : List FlatRecord := [rowB1, rowB2, rowBFill 0, rowBFill 1, rowBFill 2]

def dummyUserOut : UserOut := ⟨"", "", 0, 0, [], true, ""⟩
def dummyUnitOut : UnitOut := ⟨"", 0, "", 0, 0, "", false, []⟩
def dummyChapterOut : ChapterOut := ⟨"", 0, "", [], 0, 0⟩
def dummyUnitAcc : UnitAcc := ⟨"", 0, "", [], []⟩
def dummyUserAcc : UserAcc := ⟨"", "", 0, 0, none, []⟩
def dummyChapterAcc : ChapterAcc := ⟨"", 0, "", []⟩

/-- The Scenario B user, extracted from the built hierarchy (single chapter,
first unit in sorted order, single user). -/
def scenarioBUserOut : UserOut :=
  ((((theCourse (getLearningSystemHierarchy scenarioB)).chapters.headD dummyChapterOut).units.headD
      dummyUnitOut).users.headD dummyUserOut)

/-- The Scenario B unit (chapter 1, unit 1) as accumulated by the grouping
pass. -/
def scenarioBUnitAcc : UnitAcc :=
  (lookupKey 1 ((lookupKey 1 (buildChaptersMap scenarioB)).getD dummyChapterAcc).unitsMap).getD
    dummyUnitAcc

/-- Two-user input for the course-completion counterexample: completions 0
and 0.01, whose mean 0.005 is not representable after the 2-decimal
truncation applied at course level. -/
def rowC7a : FlatRecord :=
  { blankRow with
    ChapterId := 1
    ChapterNo := 1
    ChapterName := "Ch1"
    UnitId := some 1
    UnitNo := 1
    UnitName := "U1"
    UserId := some 1
    UserFullName := "a"
    UnitCompletionPercentage := some 0
    UnitAccuracyPercentage := some 60 }

def rowC7b : FlatRecord :=
  { rowC7a with
    UserId := some 2
    UserFullName := "b"
    UnitCompletionPercentage := some (1 / 100)
    UnitAccuracyPercentage := some 70 }

def c7Rows : List FlatRecord := [rowC7a, rowC7b]
/-- A hand-built hierarchy with a single student of 20 activities, 16
attempts each (320 total), and per-unit accuracy 65. -/
def exCourseC : CourseOut :=
  { chapters :=
      [{ chapterId := "1", chapterNo := 1, chapterName := "c",
         units :=
           [{ unitId := "1", unitNo := 1, unitName := "u", noOfLearners := 1,
              avgAccuracy := 65, avgTimeSpent := "00:00:00", isProblematic := false,
              users :=
                [{ userId := "s1", userName := "s", accuracy := 65, completion := 100,
                   activities := List.replicate 20
                     { activityName := "a", accuracy := 65, totalAttempts := 16,
                       performanceByCategory := [] },
                   isStruggling := false, totalTimeSpent := "00:00:00" }] }],
         avgAccuracy := 65, completion := 100 }],
    noOfLearners := 1, avgAccuracy := 65, completion := 100, totalTimeSpent := "00:00:00" }
/-- One row of the concept-difficulty counterexample input: eleven users all
observe concept 7 with accuracy 40 under the same activity; the first user's
activity record carries 2 attempts, the other ten carry 1, so the cohort's
average attempts for the concept is 12/11 — strictly between 1 and 1.1. -/
def c2Row (i : Nat) : FlatRecord :=
  { blankRow with
    ChapterId := 1
    ChapterNo := 1
    ChapterName := "Ch1"
    UnitId := some 1
    UnitNo := 1
    UnitName := "U1"
    ActivityTypeId := some 1
    ActivityTypeName := "act"
    SequenceBuilderID := 1
    ConceptId := some 7
    ConceptName := "concept"
    ConceptCategory := "cat"
    ConceptParentId := some 3
    ConceptParentName := "comp"
    UserId := some (i + 1)
    UserFullName := "user"
    UnitCompletionPercentage := some 50
    UnitAccuracyPercentage := some 40
    ActivityTypeAccuracyPercentage := some 40
    ActivityTotalAttempts := if i = 0 then 2 else 1
    ConceptAccuracyPercentage := some 40 }

def c2Rows : List FlatRecord := (List.range 11).map c2Row
/-- The single concept statistic produced by the `c2Rows` input. -/
def c2Stat : ConceptStat :=
  (renderConceptAnalysis (theCourse (getLearningSystemHierarchy c2Rows))).headD ⟨"", 0, 0, 0⟩
/-- The (single) chapter of the Scenario B hierarchy. -/
def scenarioBChapterOut : ChapterOut :=
  (theCourse (getLearningSystemHierarchy scenarioB)).chapters.headD dummyChapterOut

/-- The first (sorted) unit of the Scenario B hierarchy. -/
def scenarioBUnitOut : UnitOut := scenarioBChapterOut.units.headD dummyUnitOut
/-! ## Claim C8: order invariants.

"Preserves first-seen order" is formalised as monotone growth: processing
more input rows only ever appends new entries at the end of each keyed
sequence and leaves the existing entries (and their scalar fields) in place,
so an entry's position is determined by the first row that introduced it. -/

/-- List `l₂` extends `l₁` pointwise: it is at least as long and the common
positions are related by `R` (with `R := Eq`, `l₁` is a prefix of `l₂`). -/
def SeqExtends {α : Type} (R : α → α → Prop) (l₁ l₂ : List α) : Prop :=
  l₁.length ≤ l₂.length ∧
    ∀ (i : Nat) (h₁ : i < l₁.length) (h₂ : i < l₂.length), R l₁[i] l₂[i]

/-- Key-preserving pointwise extension of an association-list entry. -/
def PairExtends {κ ν : Type} (E : ν → ν → Prop) (x y : κ × ν) : Prop :=
  x.1 = y.1 ∧ E x.2 y.2
/-- Pointwise extension of the concept-element tree of an activity
performance record: scalar fields unchanged, every nested sequence only
appended to. -/
def ComponentExtends (a b : ComponentPerf) : Prop :=
  a.componentId = b.componentId ∧ a.componentName = b.componentName ∧
    SeqExtends (fun x y : ElementPerf => x = y) a.elements b.elements

def CategoryExtends (a b : CategoryPerf) : Prop :=
  a.category = b.category ∧ SeqExtends ComponentExtends a.components b.components

def ActivityPerfExtends (a b : ActivityPerf) : Prop :=
  a.activityName = b.activityName ∧ a.accuracy = b.accuracy ∧
    a.totalAttempts = b.totalAttempts ∧
    SeqExtends CategoryExtends a.performanceByCategory b.performanceByCategory

def UserExtends (a b : UserAcc) : Prop :=
  a.userId = b.userId ∧ a.userName = b.userName ∧ a.completion = b.completion ∧
    a.accuracy = b.accuracy ∧ a.totalTimeSpentSeconds = b.totalTimeSpentSeconds ∧
    SeqExtends (PairExtends ActivityPerfExtends) a.activityPerformanceMap b.activityPerformanceMap

def UnitExtends (a b : UnitAcc) : Prop :=
  a.unitId = b.unitId ∧ a.unitNo = b.unitNo ∧ a.unitName = b.unitName ∧
    SeqExtends (PairExtends UserExtends) a.usersMap b.usersMap

def ChapterExtends (a b : ChapterAcc) : Prop :=
  a.chapterId = b.chapterId ∧ a.chapterNo = b.chapterNo ∧ a.chapterName = b.chapterName ∧
    SeqExtends (PairExtends UnitExtends) a.unitsMap b.unitsMap

/-- Pointwise extension of the whole grouping state. -/
def StateExtends : List (Nat × ChapterAcc) → List (Nat × ChapterAcc) → Prop :=
  SeqExtends (PairExtends ChapterExtends)

/-! ## Claim C1. -/

/-- Claim C1 (code bug): the spec's contract is truncation — `truncate(59.996,
1) = 59.9` — but `truncateToDecimals` is implemented with
`Number.prototype.toFixed`, which rounds to the nearest: on the failing input
`num = 59.996, d = 1` the code returns `60`, not `59.9`.  (The second part of
the claim, `truncateToDecimals(-1, 1) = -1` with no clamping, does hold.) -/
theorem c1_truncateToDecimals_rounds :
    truncateToDecimals (some (59996 / 1000)) 1 = 60 ∧
    (60 : ℚ) ≠ 599 / 10 ∧
    truncateToDecimals (some (-1)) 1 = -1 := by
  norm_num +decide [truncateToDecimals]

/-! ## Claim C4. -/

/-- Claim C4 (counterexample): a malformed three-component duration string
does not degrade to `0` — `parseDurationToSeconds("1:a:3")` is
`1 * 3600 + Number("a") * 60 + 3 = NaN` (modelled as `none`), because the
source only guards against a non-string input and a component count other
than three, not against non-numeric components. -/
theorem c4_malformed_duration_is_nan :
    parseDurationToSeconds (some "1:a:3") ≠ some 0 ∧
    parseDurationToSeconds (some "1:a:3") = none := by
  norm_num +decide [parseDurationToSeconds, splitOnChar, jsNumberChars, jsNumberCore,
    digitsVal, digitVal, isDigitC]

/-- Claim C4 (amended): duration parsing degrades to `0` for a missing or
non-string value and for any colon-split component count other than three;
a three-component string with a non-numeric component however yields `NaN`
(`none`), not `0`; no `NaN` text ever surfaces in a formatted duration since
`formatSecondsToDuration` renders `NaN` as `"00:00:00"`. -/
theorem c4_parse_duration_degrades :
    parseDurationToSeconds none = some 0 ∧
    (∀ s : String, (splitOnChar ':' s.data).length ≠ 3 → parseDurationToSeconds (some s) = some 0) ∧
    parseDurationToSeconds (some "1:a:3") = none ∧
    formatSecondsToDuration none = "00:00:00" := by
  refine ⟨rfl, ?_, ?_, rfl⟩
  · intro s h
    have hlen : ¬ ((splitOnChar ':' s.data).map jsNumberChars).length = 3 := by
      simpa using h
    by_cases hd : s.data = []
    · simp [parseDurationToSeconds, hd]
    · simp [parseDurationToSeconds, hd, hlen]
      intro h3
      exact absurd h3 h
  · norm_num +decide [parseDurationToSeconds, splitOnChar, jsNumberChars, jsNumberCore,
      digitsVal, digitVal, isDigitC]

/-- Witness for C4: a two-component string parses to `0`, by the amended
theorem at `s = "1:2"`. -/
theorem c4_witness : parseDurationToSeconds (some "1:2") = some 0 :=
  c4_parse_duration_degrades.2.1 "1:2" (by norm_num +decide [splitOnChar])

/-! ## Claim C5. -/

/-- Claim C5: an absent (`none`) or empty input yields the "no data" sentinel
carrying the message, and every nonempty input yields a course (which, being
the other constructor, carries no message field). -/
theorem c5_no_data_sentinel :
    getLearningSystemHierarchyOpt none = .noData "No data found for the specified criteria." ∧
    getLearningSystemHierarchyOpt (some []) = .noData "No data found for the specified criteria." ∧
    ∀ l : List FlatRecord, l ≠ [] →
      ∃ c : CourseOut, getLearningSystemHierarchyOpt (some l) = .course c := by
  refine ⟨rfl, rfl, fun l hl => ⟨buildCourse l, ?_⟩⟩
  show getLearningSystemHierarchy l = _
  unfold getLearningSystemHierarchy
  rw [if_neg (by simpa using hl)]

/-- Witness for C5 at the one-row input `[rowA]`. -/
theorem c5_witness :
    ∃ c : CourseOut, getLearningSystemHierarchyOpt (some [rowA]) = .course c :=
  c5_no_data_sentinel.2.2 [rowA] (by simp)

/-! ## Claim C3. -/

set_option maxHeartbeats 4000000 in
/-- Claim C3 (counterexample): on the Scenario B input — two rows with the
same chapter, unit and user, one with accuracy 30 and time "02:00:00", and a
course-average unit time of exactly 1800 seconds ("00:30:00") — the built
hierarchy sets `isStruggling = false` for that user, not `true` as claimed:
the user is the only user of its unit, so their time (7200 s) equals the
unit's average time per user and is not strictly greater. -/
theorem c3_scenarioB_not_struggling :
    courseAverageTimePerUnit scenarioB = some 1800 ∧
    scenarioBUserOut.userId = "1" ∧
    scenarioBUserOut.accuracy = 30 ∧
    scenarioBUserOut.totalTimeSpent = "02:00:00" ∧
    scenarioBUserOut.isStruggling = false := by
  norm_num +decide [courseAverageTimePerUnit, calculateAverageOpt, optSum,
    parseTimeObjectToSeconds, parseDurationToSeconds, splitOnChar, jsNumberChars, jsNumberCore,
    isDigitC, digitsVal, digitVal, timeTruthy, theCourse, getLearningSystemHierarchy, buildCourse,
    buildChaptersMap, processRow, insertIfAbsent, updateKey, updateFirst, lookupKey, newChapter,
    newUnit, newUser, unitStep, userStep, sortedChapters, List.insertionSort, List.orderedInsert,
    finalizeChapter, sortedUnits, finalizeUnit, finalizeUser, unitUsers, avgUnitTimePerUser,
    rawUnitAvgAccuracy, calculateAverage, truncateToDecimals, jsGtB, formatSecondsToDuration,
    jsMod, pad2, natToChars, natToCharsGo, digitChar, natStr, jsString, scenarioB, rowB1, rowB2,
    rowBFill, blankRow, scenarioBUserOut, scenarioBUnitAcc, dummyChapterOut, dummyUnitOut,
    dummyUserOut, dummyChapterAcc, dummyUnitAcc, dummyUserAcc]

set_option maxHeartbeats 4000000 in
/-- Claim C3 (amended): on the Scenario B input the flag comes out `false`.
The definition in the claim is the code's: `isStruggling` = accuracy < 50 AND
time strictly greater than the unit's average time per user (the
course-average unit time plays no role); here the unit's average equals the
user's own 7200 seconds because the user is alone in the unit, so the strict
comparison — evaluated exactly as `decide (30 < 50) && jsGtB (some 7200)
(some 7200)` — fails. -/
theorem c3_scenarioB_amended :
    avgUnitTimePerUser scenarioBUnitAcc = some 7200 ∧
    ((lookupKey 1 scenarioBUnitAcc.usersMap).getD dummyUserAcc).totalTimeSpentSeconds = some 7200 ∧
    ((lookupKey 1 scenarioBUnitAcc.usersMap).getD dummyUserAcc).accuracy = 30 ∧
    jsGtB (some 7200) (some 7200) = false ∧
    scenarioBUserOut.isStruggling = (decide ((30 : ℚ) < 50) && jsGtB (some 7200) (some 7200)) := by
  norm_num +decide [courseAverageTimePerUnit, calculateAverageOpt, optSum,
    parseTimeObjectToSeconds, parseDurationToSeconds, splitOnChar, jsNumberChars, jsNumberCore,
    isDigitC, digitsVal, digitVal, timeTruthy, theCourse, getLearningSystemHierarchy, buildCourse,
    buildChaptersMap, processRow, insertIfAbsent, updateKey, updateFirst, lookupKey, newChapter,
    newUnit, newUser, unitStep, userStep, sortedChapters, List.insertionSort, List.orderedInsert,
    finalizeChapter, sortedUnits, finalizeUnit, finalizeUser, unitUsers, avgUnitTimePerUser,
    rawUnitAvgAccuracy, calculateAverage, truncateToDecimals, jsGtB, formatSecondsToDuration,
    jsMod, pad2, natToChars, natToCharsGo, digitChar, natStr, jsString, scenarioB, rowB1, rowB2,
    rowBFill, blankRow, scenarioBUserOut, scenarioBUnitAcc, dummyChapterOut, dummyUnitOut,
    dummyUserOut, dummyChapterAcc, dummyUnitAcc, dummyUserAcc]

/-! ## Claim C7. -/



set_option maxHeartbeats 4000000 in
/-- Claim C7 (counterexample): course-level completion does not equal the
arithmetic mean of the user-in-unit completions — the stored value is that
mean truncated (in fact rounded, see C1) to 2 decimals.  With completions 0
and 0.01 the mean is 1/200 = 0.005 but the built hierarchy stores 0.01. -/
theorem c7_completion_not_exact_mean :
    (theCourse (getLearningSystemHierarchy c7Rows)).completion = 1 / 100 ∧
    calculateAverage
      ((theCourse (getLearningSystemHierarchy c7Rows)).chapters.flatMap
        (fun ch => ch.units.flatMap (fun u => u.users.map (fun x => x.completion)))) = 1 / 200 ∧
    (1 / 100 : ℚ) ≠ 1 / 200 := by
  norm_num +decide [courseAverageTimePerUnit, calculateAverageOpt, optSum,
    parseTimeObjectToSeconds, parseDurationToSeconds, splitOnChar, jsNumberChars, jsNumberCore,
    isDigitC, digitsVal, digitVal, timeTruthy, theCourse, getLearningSystemHierarchy, buildCourse,
    buildChaptersMap, processRow, insertIfAbsent, updateKey, updateFirst, lookupKey, newChapter,
    newUnit, newUser, unitStep, userStep, sortedChapters, List.insertionSort, List.orderedInsert,
    finalizeChapter, sortedUnits, finalizeUnit, finalizeUser, unitUsers, avgUnitTimePerUser,
    rawUnitAvgAccuracy, calculateAverage, truncateToDecimals, jsGtB, formatSecondsToDuration,
    jsMod, pad2, natToChars, natToCharsGo, digitChar, natStr, jsString, c7Rows, rowC7a, rowC7b,
    blankRow]

/-! ## Claim C9. -/

/-- Claim C9: the classifier's average attempts per activity equals
`totalAttempts / max(activityCount, 1)` (the source's `activityCount || 1`),
classification is by first-match precedence — "Persistence without Mastery"
when that average exceeds 15 and the mean of the student's per-unit
accuracies is below 70, else "Knowledge Gap" below 60, else "Methodical" —
and a student with 20 activities, 320 total attempts and average per-unit
accuracy 65 is classified "Persistence without Mastery". -/
theorem c9_classifier :
    (∀ (c : CourseOut) (uid : String),
      classifyStudent c uid =
        (if 15 < (studentTotals c uid).1 / max ((studentTotals c uid).2 : ℚ) 1 ∧
            studentAvgAccuracy c uid < 70 then "Persistence without Mastery"
         else if studentAvgAccuracy c uid < 60 then "Knowledge Gap"
         else "Methodical")) ∧
    (∀ (c : CourseOut) (uid : String),
      (studentTotals c uid).2 = 20 → (studentTotals c uid).1 = 320 →
      studentAvgAccuracy c uid = 65 → classifyStudent c uid = "Persistence without Mastery") := by
  have hmax : ∀ n : Nat, (if n = 0 then (1 : ℚ) else (n : ℚ)) = max (n : ℚ) 1 := by
    intro n
    rcases Nat.eq_zero_or_pos n with h | h
    · simp [h]
    · have h1 : (1 : ℚ) ≤ (n : ℚ) := by exact_mod_cast h
      rw [if_neg (by omega), max_eq_left h1]
  constructor
  · intro c uid
    rw [classifyStudent, avgAttemptsPerActivity, hmax]
  · intro c uid hn ht hacc
    rw [classifyStudent, if_pos]
    constructor
    · rw [avgAttemptsPerActivity, hn, ht]
      norm_num
    · rw [hacc]
      norm_num



set_option maxHeartbeats 1000000 in
/-- Witness for C9: Scenario C evaluated on `exCourseC`. -/
theorem c9_witness : classifyStudent exCourseC "s1" = "Persistence without Mastery" :=
  c9_classifier.2 exCourseC "s1"
    (by norm_num +decide [studentTotals, exCourseC, List.replicate])
    (by norm_num +decide [studentTotals, exCourseC, List.replicate])
    (by norm_num +decide [studentAvgAccuracy, exCourseC, calculateAverage])

/-! ## Claim C2. -/



set_option maxHeartbeats 16000000 in
/-- Claim C2 (counterexample): the difficulty index is not
`(100 − avgAccuracy) × max(avgAttempts, 1.1)`: the source computes
`(100 − avgAccuracy) * (avgAttempts > 1 ? avgAttempts : 1.1)`, which differs
whenever `1 < avgAttempts < 1.1`.  On `c2Rows` the single concept has
`avgAccuracy = 40` and `avgAttempts = 12/11 ∈ (1, 1.1)`, and the code yields
`60 * 12/11 = 720/11 ≈ 65.45`, whereas the claimed formula yields
`60 * 1.1 = 66`. -/
theorem c2_difficulty_not_max :
    renderConceptAnalysis (theCourse (getLearningSystemHierarchy c2Rows)) =
      [{ name := "concept", avgAccuracy := 40, avgAttempts := 12 / 11, difficulty := 720 / 11 }] ∧
    ¬ ((720 : ℚ) / 11 = (100 - 40) * max (12 / 11 : ℚ) (11 / 10)) := by
  constructor
  · simp +decide [c2Rows, c2Row, blankRow, List.range, List.range.loop, List.map,
      renderConceptAnalysis, conceptObservations, conceptStep, conceptStatOf, activityHasElement,
      theCourse, getLearningSystemHierarchy, buildCourse, buildChaptersMap, processRow,
      insertIfAbsent, updateKey, updateFirst, lookupKey, newChapter, newUnit, newUser, unitStep,
      userStep, newActivity, newActivityPerf, conceptPush, perfTreeUpdate, categoryUpdate,
      elementPushIfAbsent, courseAverageTimePerUnit, calculateAverageOpt, optSum,
      parseTimeObjectToSeconds, parseDurationToSeconds, splitOnChar, jsNumberChars, jsNumberCore,
      isDigitC, digitsVal, digitVal, timeTruthy, sortedChapters, List.insertionSort,
      List.orderedInsert, finalizeChapter, sortedUnits, finalizeUnit, finalizeUser, unitUsers,
      avgUnitTimePerUser, rawUnitAvgAccuracy, calculateAverage, truncateToDecimals, jsGtB,
      formatSecondsToDuration, jsMod, pad2, natToChars, natToCharsGo, digitChar, natStr, jsString,
      List.foldl, List.flatMap, List.filter, List.filterMap, List.dedup, List.any, List.find?,
      List.getD, List.sum, List.length, List.append]
    norm_num +decide [List.cons_ne_nil]
  · have hm : max (12 / 11 : ℚ) (11 / 10) = 11 / 10 := max_eq_right (by norm_num)
    rw [hm]
    norm_num

/-- Claim C2 (amended): for every concept in the analysis of any built
hierarchy, the difficulty index is `(100 − avgAccuracy) * (avgAttempts if
avgAttempts > 1 else 1.1)` — `max(avgAttempts, 1.1)` only when `avgAttempts`
is outside `(1, 1.1)`; in particular accuracy 40 with attempts 5 gives
exactly 300 — and the list is sorted descending by this index. -/
theorem c2_difficulty_formula :
    (∀ c : CourseOut, ∀ stat ∈ renderConceptAnalysis c,
      stat.difficulty = (100 - stat.avgAccuracy) *
        (if 1 < stat.avgAttempts then stat.avgAttempts else 11 / 10) ∧
      (stat.avgAccuracy = 40 → stat.avgAttempts = 5 → stat.difficulty = 300)) ∧
    (∀ c : CourseOut,
      (renderConceptAnalysis c).Pairwise (fun a b => b.difficulty ≤ a.difficulty)) := by
  constructor
  · intro c stat hmem
    have hmem2 : stat ∈ ((conceptObservations c).foldl conceptStep []).map
        (fun p => conceptStatOf p.2) := by
      simpa [renderConceptAnalysis, List.mem_insertionSort] using hmem
    obtain ⟨p, hp, rfl⟩ := List.mem_map.mp hmem2
    refine ⟨rfl, ?_⟩
    intro h40 h5
    have h40a : calculateAverage p.2.accuracies = 40 := h40
    have h5a : calculateAverage p.2.attempts = 5 := h5
    show (100 - calculateAverage p.2.accuracies) *
      (if 1 < calculateAverage p.2.attempts then calculateAverage p.2.attempts else 11 / 10) = 300
    rw [h40a, h5a]
    norm_num
  · intro c
    haveI : IsTotal ConceptStat (fun a b => b.difficulty ≤ a.difficulty) :=
      ⟨fun a b => le_total b.difficulty a.difficulty⟩
    haveI : IsTrans ConceptStat (fun a b => b.difficulty ≤ a.difficulty) :=
      ⟨fun _ _ _ hab hbc => le_trans hbc hab⟩
    exact List.sorted_insertionSort _ _



set_option maxHeartbeats 16000000 in
/-- Witness for C2: the amended formula and the descending sort, instantiated
on the concept ranking built from `c2Rows`. -/
theorem c2_witness :
    (c2Stat.difficulty = (100 - c2Stat.avgAccuracy) *
      (if 1 < c2Stat.avgAttempts then c2Stat.avgAttempts else 11 / 10) ∧
     (c2Stat.avgAccuracy = 40 → c2Stat.avgAttempts = 5 → c2Stat.difficulty = 300)) ∧
    (renderConceptAnalysis (theCourse (getLearningSystemHierarchy c2Rows))).Pairwise
      (fun a b => b.difficulty ≤ a.difficulty) :=
  ⟨c2_difficulty_formula.1 (theCourse (getLearningSystemHierarchy c2Rows)) c2Stat
    (by
      simp +decide [c2Stat, c2Rows, c2Row, blankRow, List.range, List.range.loop, List.map,
        renderConceptAnalysis, conceptObservations, conceptStep, conceptStatOf, activityHasElement,
        theCourse, getLearningSystemHierarchy, buildCourse, buildChaptersMap, processRow,
        insertIfAbsent, updateKey, updateFirst, lookupKey, newChapter, newUnit, newUser, unitStep,
        userStep, newActivity, newActivityPerf, conceptPush, perfTreeUpdate, categoryUpdate,
        elementPushIfAbsent, courseAverageTimePerUnit, calculateAverageOpt, optSum,
        parseTimeObjectToSeconds, parseDurationToSeconds, splitOnChar, jsNumberChars, jsNumberCore,
        isDigitC, digitsVal, digitVal, timeTruthy, sortedChapters, List.insertionSort,
        List.orderedInsert, finalizeChapter, sortedUnits, finalizeUnit, finalizeUser, unitUsers,
        avgUnitTimePerUser, rawUnitAvgAccuracy, calculateAverage, truncateToDecimals, jsGtB,
        formatSecondsToDuration, jsMod, pad2, natToChars, natToCharsGo, digitChar, natStr, jsString,
        List.foldl, List.flatMap, List.filter, List.filterMap, List.dedup, List.any, List.find?,
        List.getD, List.sum, List.length, List.append, List.headD]),
   c2_difficulty_formula.2 (theCourse (getLearningSystemHierarchy c2Rows))⟩

/-! ## Structure of the built hierarchy (shared helper lemmas). -/

/-- Every chapter of a built hierarchy is the finalization of an accumulated
chapter, with the course-average unit time of the input. -/
theorem mem_chapters_eq (l : List FlatRecord) (ch : ChapterOut)
    (h : ch ∈ (theCourse (getLearningSystemHierarchy l)).chapters) :
    ∃ cacc : ChapterAcc, ch = finalizeChapter (courseAverageTimePerUnit l) cacc := by
  unfold getLearningSystemHierarchy at h
  by_cases hl : l.length = 0
  · rw [if_pos hl] at h
    simp [theCourse] at h
  · rw [if_neg hl] at h
    simp only [theCourse, buildCourse] at h
    obtain ⟨cacc, _, rfl⟩ := List.mem_map.mp h
    exact ⟨cacc, rfl⟩

/-- Every unit of a finalized chapter is the finalization of an accumulated
unit. -/
theorem mem_units_eq (avg : Option ℚ) (cacc : ChapterAcc) (un : UnitOut)
    (h : un ∈ (finalizeChapter avg cacc).units) :
    ∃ ua : UnitAcc, un = finalizeUnit avg ua := by
  simp only [finalizeChapter] at h
  obtain ⟨ua, _, rfl⟩ := List.mem_map.mp h
  exact ⟨ua, rfl⟩

/-! ## Claim C6. -/

/-- Claim C6: for every unit in a built hierarchy, `isProblematic` holds iff
the unit's (raw, pre-truncation) average accuracy over its users' nonzero
accuracies is below 60 AND the unit's average time per user strictly exceeds
the course-wide average unit time, the latter computed over the input records
having both a truthy `UserId` and a truthy `UnitTimeSpent`
(`courseAverageTimePerUnit`); the strict comparison is the JS `>` (false when
either side is `NaN`). -/
theorem c6_isProblematic (l : List FlatRecord) (ch : ChapterOut) (un : UnitOut)
    (hch : ch ∈ (theCourse (getLearningSystemHierarchy l)).chapters) (hun : un ∈ ch.units) :
    ∃ ua : UnitAcc,
      un = finalizeUnit (courseAverageTimePerUnit l) ua ∧
      (un.isProblematic = true ↔
        rawUnitAvgAccuracy ua < 60 ∧
        jsGtB (avgUnitTimePerUser ua) (courseAverageTimePerUnit l) = true) := by
  obtain ⟨cacc, rfl⟩ := mem_chapters_eq l ch hch
  obtain ⟨ua, rfl⟩ := mem_units_eq _ cacc un hun
  refine ⟨ua, rfl, ?_⟩
  simp [finalizeUnit]



set_option maxHeartbeats 4000000 in
/-- Witness for C6 on the Scenario B input. -/
theorem c6_witness :
    ∃ ua : UnitAcc,
      scenarioBUnitOut = finalizeUnit (courseAverageTimePerUnit scenarioB) ua ∧
      (scenarioBUnitOut.isProblematic = true ↔
        rawUnitAvgAccuracy ua < 60 ∧
        jsGtB (avgUnitTimePerUser ua) (courseAverageTimePerUnit scenarioB) = true) :=
  c6_isProblematic scenarioB scenarioBChapterOut scenarioBUnitOut
    (by
      simp +decide [scenarioBChapterOut, scenarioB, rowB1, rowB2, rowBFill, blankRow,
        theCourse, getLearningSystemHierarchy, buildCourse, buildChaptersMap, processRow,
        insertIfAbsent, updateKey, updateFirst, lookupKey, newChapter, newUnit, newUser, unitStep,
        userStep, courseAverageTimePerUnit, calculateAverageOpt, optSum, parseTimeObjectToSeconds,
        parseDurationToSeconds, splitOnChar, jsNumberChars, jsNumberCore, isDigitC, digitsVal,
        digitVal, timeTruthy, sortedChapters, List.insertionSort, List.orderedInsert,
        finalizeChapter, sortedUnits, finalizeUnit, finalizeUser, unitUsers, avgUnitTimePerUser,
        rawUnitAvgAccuracy, calculateAverage, truncateToDecimals, jsGtB, formatSecondsToDuration,
        jsMod, pad2, natToChars, natToCharsGo, digitChar, natStr, jsString, List.foldl,
        List.flatMap, List.filter, List.filterMap, List.dedup, List.any, List.find?, List.getD,
        List.sum, List.length, List.append, List.headD])
    (by
      simp +decide [scenarioBUnitOut, scenarioBChapterOut, scenarioB, rowB1, rowB2, rowBFill,
        blankRow, theCourse, getLearningSystemHierarchy, buildCourse, buildChaptersMap, processRow,
        insertIfAbsent, updateKey, updateFirst, lookupKey, newChapter, newUnit, newUser, unitStep,
        userStep, courseAverageTimePerUnit, calculateAverageOpt, optSum, parseTimeObjectToSeconds,
        parseDurationToSeconds, splitOnChar, jsNumberChars, jsNumberCore, isDigitC, digitsVal,
        digitVal, timeTruthy, sortedChapters, List.insertionSort, List.orderedInsert,
        finalizeChapter, sortedUnits, finalizeUnit, finalizeUser, unitUsers, avgUnitTimePerUser,
        rawUnitAvgAccuracy, calculateAverage, truncateToDecimals, jsGtB, formatSecondsToDuration,
        jsMod, pad2, natToChars, natToCharsGo, digitChar, natStr, jsString, List.foldl,
        List.flatMap, List.filter, List.filterMap, List.dedup, List.any, List.find?, List.getD,
        List.sum, List.length, List.append, List.headD])

/-- The mean of a list of nonnegative rationals is nonnegative. -/
theorem calculateAverage_nonneg (l : List ℚ) (h : ∀ x ∈ l, 0 ≤ x) :
    0 ≤ calculateAverage l := by
  unfold calculateAverage
  split
  · exact le_refl 0
  · exact div_nonneg (List.sum_nonneg h) (by positivity)

/-- The truncation `truncateToDecimals` maps nonnegative values to nonnegative values. -/
theorem truncateToDecimals_nonneg (x : ℚ) (d : Nat) (h : 0 ≤ x) :
    0 ≤ truncateToDecimals (some x) d := by
  unfold truncateToDecimals
  apply div_nonneg _ (by positivity)
  rw [Int.cast_nonneg, Int.floor_nonneg]
  positivity

/-- A unit's raw average accuracy is nonnegative (it averages the strictly
positive user accuracies). -/
theorem rawUnitAvgAccuracy_nonneg (ua : UnitAcc) : 0 ≤ rawUnitAvgAccuracy ua := by
  apply calculateAverage_nonneg
  intro x hx
  have := List.of_mem_filter hx
  simp only [decide_eq_true_eq] at this
  exact le_of_lt this

/-! ## Claim C7. -/

/-- Claim C7 (amended): in every built hierarchy, course-level average
accuracy is the mean of the unit-level average accuracies excluding the zero
ones, and course-level completion is the mean of every individual
user-in-unit completion value (not unit-averaged) — but each mean is then
passed through the 2-decimal `truncateToDecimals` before being stored, so
the stored values equal the truncation of those means, not the means
themselves. -/
theorem c7_course_rollups (l : List FlatRecord) (hl : l ≠ []) :
    (theCourse (getLearningSystemHierarchy l)).avgAccuracy =
      truncateToDecimals (some (calculateAverage
        (((theCourse (getLearningSystemHierarchy l)).chapters.flatMap
          (fun ch => ch.units.map (fun u => u.avgAccuracy))).filter (fun a => a ≠ 0)))) 2 ∧
    (theCourse (getLearningSystemHierarchy l)).completion =
      truncateToDecimals (some (calculateAverage
        ((theCourse (getLearningSystemHierarchy l)).chapters.flatMap
          (fun ch => ch.units.flatMap (fun u => u.users.map (fun x => x.completion)))))) 2 := by
  have hnn : ∀ a ∈ (theCourse (getLearningSystemHierarchy l)).chapters.flatMap
      (fun ch => ch.units.map (fun u => u.avgAccuracy)), 0 ≤ a := by
    intro a ha
    rw [List.mem_flatMap] at ha
    obtain ⟨ch, hch, ha⟩ := ha
    rw [List.mem_map] at ha
    obtain ⟨un, hun, rfl⟩ := ha
    obtain ⟨cacc, rfl⟩ := mem_chapters_eq l ch hch
    obtain ⟨ua, rfl⟩ := mem_units_eq _ cacc un hun
    exact truncateToDecimals_nonneg _ 2 (rawUnitAvgAccuracy_nonneg ua)
  have hfilter :
      ((theCourse (getLearningSystemHierarchy l)).chapters.flatMap
        (fun ch => ch.units.map (fun u => u.avgAccuracy))).filter (fun a => a ≠ 0) =
      ((theCourse (getLearningSystemHierarchy l)).chapters.flatMap
        (fun ch => ch.units.map (fun u => u.avgAccuracy))).filter (fun a => 0 < a) := by
    apply List.filter_congr
    intro a ha
    have h0 := hnn a ha
    rcases eq_or_lt_of_le h0 with h | h
    · simp [h.symm]
    · simp [h, ne_of_gt h]
  unfold getLearningSystemHierarchy at hfilter ⊢
  rw [if_neg (by simpa using hl)] at hfilter ⊢
  rw [hfilter]
  simp only [theCourse, buildCourse]
  constructor
  · trivial
  · simp only [List.map_flatMap]

set_option maxHeartbeats 1000000 in
/-- Witness for C7 at the two-row input `c7Rows`. -/
theorem c7_witness :
    (theCourse (getLearningSystemHierarchy c7Rows)).avgAccuracy =
      truncateToDecimals (some (calculateAverage
        (((theCourse (getLearningSystemHierarchy c7Rows)).chapters.flatMap
          (fun ch => ch.units.map (fun u => u.avgAccuracy))).filter (fun a => a ≠ 0)))) 2 ∧
    (theCourse (getLearningSystemHierarchy c7Rows)).completion =
      truncateToDecimals (some (calculateAverage
        ((theCourse (getLearningSystemHierarchy c7Rows)).chapters.flatMap
          (fun ch => ch.units.flatMap (fun u => u.users.map (fun x => x.completion)))))) 2 :=
  c7_course_rollups c7Rows (by simp [c7Rows])



theorem seqExtends_refl {α : Type} (R : α → α → Prop) (hR : ∀ a, R a a) (l : List α) :
    SeqExtends R l l :=
  ⟨le_refl _, fun _ _ _ => hR _⟩

theorem seqExtends_trans {α : Type} {R : α → α → Prop}
    (hR : ∀ a b c, R a b → R b c → R a c) {l₁ l₂ l₃ : List α}
    (h₁ : SeqExtends R l₁ l₂) (h₂ : SeqExtends R l₂ l₃) : SeqExtends R l₁ l₃ := by
  refine ⟨le_trans h₁.1 h₂.1, fun i hi₁ hi₃ => ?_⟩
  have hi₂ : i < l₂.length := lt_of_lt_of_le hi₁ h₁.1
  exact hR _ _ _ (h₁.2 i hi₁ hi₂) (h₂.2 i hi₂ hi₃)

theorem seqExtends_append {α : Type} (R : α → α → Prop) (hR : ∀ a, R a a)
    (l t : List α) : SeqExtends R l (l ++ t) := by
  refine ⟨by simp, fun i h₁ h₂ => ?_⟩
  rw [List.getElem_append_left h₁]
  exact hR _

theorem seqExtends_insertIfAbsent {κ ν : Type} [DecidableEq κ]
    (R : (κ × ν) → (κ × ν) → Prop) (hR : ∀ a, R a a) (k : κ) (v : ν)
    (m : List (κ × ν)) : SeqExtends R m (insertIfAbsent k v m) := by
  unfold insertIfAbsent
  split
  · exact seqExtends_refl R hR m
  · exact seqExtends_append R hR m [(k, v)]

theorem length_updateFirst {α : Type} (p : α → Bool) (f : α → α) (l : List α) :
    (updateFirst p f l).length = l.length := by
  induction l with
  | nil => rfl
  | cons a l ih =>
    unfold updateFirst
    split
    · simp
    · simpa using ih

theorem seqExtends_updateFirst {α : Type} (R : α → α → Prop) (hR : ∀ a, R a a)
    (p : α → Bool) (f : α → α) (hf : ∀ a, R a (f a)) (l : List α) :
    SeqExtends R l (updateFirst p f l) := by
  induction l with
  | nil => exact ⟨le_refl _, fun i h₁ _ => absurd h₁ (by simp)⟩
  | cons a l ih =>
    unfold updateFirst
    split
    · refine ⟨by simp, fun i h₁ h₂ => ?_⟩
      match i with
      | 0 => exact hf a
      | j + 1 =>
        simp only [List.getElem_cons_succ]
        exact hR _
    · refine ⟨by simp [length_updateFirst], fun i h₁ h₂ => ?_⟩
      match i with
      | 0 => exact hR a
      | j + 1 =>
        simp only [List.getElem_cons_succ]
        exact ih.2 j (by simpa using h₁) (by simpa [length_updateFirst] using h₂)

theorem seqExtends_updateKey {κ ν : Type} [DecidableEq κ] (E : ν → ν → Prop)
    (hE : ∀ a, E a a) (k : κ) (f : ν → ν) (hf : ∀ v, E v (f v)) (m : List (κ × ν)) :
    SeqExtends (PairExtends E) m (updateKey k f m) := by
  unfold updateKey
  apply seqExtends_updateFirst _ (fun a => ⟨rfl, hE a.2⟩)
  intro a
  exact ⟨rfl, hf a.2⟩



theorem componentExtends_refl (a : ComponentPerf) : ComponentExtends a a :=
  ⟨rfl, rfl, seqExtends_refl _ (fun _ => rfl) _⟩

theorem categoryExtends_refl (a : CategoryPerf) : CategoryExtends a a :=
  ⟨rfl, seqExtends_refl _ componentExtends_refl _⟩

theorem activityPerfExtends_refl (a : ActivityPerf) : ActivityPerfExtends a a :=
  ⟨rfl, rfl, rfl, seqExtends_refl _ categoryExtends_refl _⟩

theorem userExtends_refl (a : UserAcc) : UserExtends a a :=
  ⟨rfl, rfl, rfl, rfl, rfl, seqExtends_refl _ (fun p => ⟨rfl, activityPerfExtends_refl p.2⟩) _⟩

theorem unitExtends_refl (a : UnitAcc) : UnitExtends a a :=
  ⟨rfl, rfl, rfl, seqExtends_refl _ (fun p => ⟨rfl, userExtends_refl p.2⟩) _⟩

theorem chapterExtends_refl (a : ChapterAcc) : ChapterExtends a a :=
  ⟨rfl, rfl, rfl, seqExtends_refl _ (fun p => ⟨rfl, unitExtends_refl p.2⟩) _⟩

theorem stateExtends_refl (m : List (Nat × ChapterAcc)) : StateExtends m m :=
  seqExtends_refl _ (fun p => ⟨rfl, chapterExtends_refl p.2⟩) m

theorem pairExtends_trans {κ ν : Type} {E : ν → ν → Prop}
    (hE : ∀ a b c : ν, E a b → E b c → E a c) {x y z : κ × ν}
    (h₁ : PairExtends E x y) (h₂ : PairExtends E y z) : PairExtends E x z :=
  ⟨h₁.1.trans h₂.1, hE _ _ _ h₁.2 h₂.2⟩

theorem componentExtends_trans (a b c : ComponentPerf)
    (h₁ : ComponentExtends a b) (h₂ : ComponentExtends b c) : ComponentExtends a c :=
  ⟨h₁.1.trans h₂.1, h₁.2.1.trans h₂.2.1,
    @seqExtends_trans _ (fun x y : ElementPerf => x = y) (fun _ _ _ u v => u.trans v)
      _ _ _ h₁.2.2 h₂.2.2⟩

theorem categoryExtends_trans (a b c : CategoryPerf)
    (h₁ : CategoryExtends a b) (h₂ : CategoryExtends b c) : CategoryExtends a c :=
  ⟨h₁.1.trans h₂.1,
    @seqExtends_trans _ ComponentExtends componentExtends_trans _ _ _ h₁.2 h₂.2⟩

theorem activityPerfExtends_trans (a b c : ActivityPerf)
    (h₁ : ActivityPerfExtends a b) (h₂ : ActivityPerfExtends b c) : ActivityPerfExtends a c :=
  ⟨h₁.1.trans h₂.1, h₁.2.1.trans h₂.2.1, h₁.2.2.1.trans h₂.2.2.1,
    @seqExtends_trans _ CategoryExtends categoryExtends_trans _ _ _ h₁.2.2.2 h₂.2.2.2⟩

theorem userExtends_trans (a b c : UserAcc)
    (h₁ : UserExtends a b) (h₂ : UserExtends b c) : UserExtends a c :=
  ⟨h₁.1.trans h₂.1, h₁.2.1.trans h₂.2.1, h₁.2.2.1.trans h₂.2.2.1,
    h₁.2.2.2.1.trans h₂.2.2.2.1, h₁.2.2.2.2.1.trans h₂.2.2.2.2.1,
    @seqExtends_trans _ (PairExtends ActivityPerfExtends)
      (fun _ _ _ u v => @pairExtends_trans _ _ ActivityPerfExtends activityPerfExtends_trans _ _ _ u v)
      _ _ _ h₁.2.2.2.2.2 h₂.2.2.2.2.2⟩

theorem unitExtends_trans (a b c : UnitAcc)
    (h₁ : UnitExtends a b) (h₂ : UnitExtends b c) : UnitExtends a c :=
  ⟨h₁.1.trans h₂.1, h₁.2.1.trans h₂.2.1, h₁.2.2.1.trans h₂.2.2.1,
    @seqExtends_trans _ (PairExtends UserExtends)
      (fun _ _ _ u v => @pairExtends_trans _ _ UserExtends userExtends_trans _ _ _ u v)
      _ _ _ h₁.2.2.2 h₂.2.2.2⟩

theorem chapterExtends_trans (a b c : ChapterAcc)
    (h₁ : ChapterExtends a b) (h₂ : ChapterExtends b c) : ChapterExtends a c :=
  ⟨h₁.1.trans h₂.1, h₁.2.1.trans h₂.2.1, h₁.2.2.1.trans h₂.2.2.1,
    @seqExtends_trans _ (PairExtends UnitExtends)
      (fun _ _ _ u v => @pairExtends_trans _ _ UnitExtends unitExtends_trans _ _ _ u v)
      _ _ _ h₁.2.2.2 h₂.2.2.2⟩

theorem stateExtends_trans {m₁ m₂ m₃ : List (Nat × ChapterAcc)}
    (h₁ : StateExtends m₁ m₂) (h₂ : StateExtends m₂ m₃) : StateExtends m₁ m₃ :=
  @seqExtends_trans _ (PairExtends ChapterExtends)
    (fun _ _ _ u v => @pairExtends_trans _ _ ChapterExtends chapterExtends_trans _ _ _ u v)
    _ _ _ h₁ h₂

theorem componentExtends_elementPush (row : FlatRecord) (cid : Nat) (comp : ComponentPerf) :
    ComponentExtends comp (elementPushIfAbsent row cid comp) := by
  unfold elementPushIfAbsent
  split
  · exact componentExtends_refl comp
  · exact ⟨rfl, rfl, seqExtends_append _ (fun _ => rfl) _ _⟩

theorem categoryExtends_categoryUpdate (row : FlatRecord) (cid : Nat) (cat : CategoryPerf) :
    CategoryExtends cat (categoryUpdate row cid cat) := by
  simp only [categoryUpdate]
  refine ⟨rfl, ?_⟩
  refine @seqExtends_trans _ ComponentExtends componentExtends_trans _
    (if cat.components.any (fun c => c.componentId = jsString row.ConceptParentId) then
      cat.components
     else cat.components ++
      [{ componentId := jsString row.ConceptParentId,
         componentName := row.ConceptParentName, elements := [] }]) _ ?_ ?_
  · split
    · exact seqExtends_refl _ componentExtends_refl _
    · exact seqExtends_append _ componentExtends_refl _ _
  · exact seqExtends_updateFirst _ componentExtends_refl _ _
      (componentExtends_elementPush row cid) _

theorem activityPerfExtends_perfTreeUpdate (row : FlatRecord) (cid : Nat) (ap : ActivityPerf) :
    ActivityPerfExtends ap (perfTreeUpdate row cid ap) := by
  simp only [perfTreeUpdate]
  refine ⟨rfl, rfl, rfl, ?_⟩
  refine @seqExtends_trans _ CategoryExtends categoryExtends_trans _
    (if ap.performanceByCategory.any (fun c => c.category = row.ConceptCategory) then
      ap.performanceByCategory
     else ap.performanceByCategory ++ [{ category := row.ConceptCategory, components := [] }]) _ ?_ ?_
  · split
    · exact seqExtends_refl _ categoryExtends_refl _
    · exact seqExtends_append _ categoryExtends_refl _ _
  · exact seqExtends_updateFirst _ categoryExtends_refl _ _
      (categoryExtends_categoryUpdate row cid) _

theorem unitExtends_userStep (row : FlatRecord) (activity : Option ActivityAcc) (u : UnitAcc) :
    UnitExtends u (userStep row activity u) := by
  rcases hu : row.UserId with _ | uid
  · simp only [userStep, hu]
    exact unitExtends_refl u
  · simp only [userStep, hu]
    refine ⟨rfl, rfl, rfl, ?_⟩
    have hRrefl : ∀ p : Nat × UserAcc, PairExtends UserExtends p p :=
      fun p => ⟨rfl, userExtends_refl p.2⟩
    have htrans := fun s t u hst htu =>
      @pairExtends_trans Nat UserAcc UserExtends userExtends_trans s t u hst htu
    rcases activity with _ | act
    · simp only
      exact seqExtends_insertIfAbsent _ hRrefl _ _ _
    · rcases hc : row.ConceptId with _ | cid
      · simp only [hc]
        refine @seqExtends_trans _ (PairExtends UserExtends) htrans _ _ _
          (seqExtends_insertIfAbsent _ hRrefl uid (newUser row uid) _) ?_
        apply seqExtends_updateKey _ userExtends_refl
        intro v
        split
        · exact userExtends_refl v
        · exact ⟨rfl, rfl, rfl, rfl, rfl,
            seqExtends_append _ (fun p => ⟨rfl, activityPerfExtends_refl p.2⟩) _ _⟩
      · simp only [hc]
        refine @seqExtends_trans _ (PairExtends UserExtends) htrans _ _ _ ?_
          (seqExtends_updateKey _ userExtends_refl _ _ ?_ _)
        · refine @seqExtends_trans _ (PairExtends UserExtends) htrans _ _ _
            (seqExtends_insertIfAbsent _ hRrefl uid (newUser row uid) _) ?_
          apply seqExtends_updateKey _ userExtends_refl
          intro v
          split
          · exact userExtends_refl v
          · exact ⟨rfl, rfl, rfl, rfl, rfl,
              seqExtends_append _ (fun p => ⟨rfl, activityPerfExtends_refl p.2⟩) _ _⟩
        · intro v
          refine ⟨rfl, rfl, rfl, rfl, rfl, ?_⟩
          apply seqExtends_updateKey _ activityPerfExtends_refl
          exact activityPerfExtends_perfTreeUpdate row cid

theorem unitExtends_unitStep (row : FlatRecord) (uid : Nat) (u : UnitAcc) :
    UnitExtends u (unitStep row uid u) := by
  have key : ∀ (act : Option ActivityAcc) (v : UnitAcc), v.unitId = u.unitId →
      v.unitNo = u.unitNo → v.unitName = u.unitName → v.usersMap = u.usersMap →
      UnitExtends u (userStep row act v) := by
    intro act v h1 h2 h3 h4
    have hv := unitExtends_userStep row act v
    refine ⟨?_, ?_, ?_, ?_⟩
    · rw [← h1]; exact hv.1
    · rw [← h2]; exact hv.2.1
    · rw [← h3]; exact hv.2.2.1
    · rw [← h4]; exact hv.2.2.2
  simp only [unitStep]
  repeat' split
  all_goals exact key _ _ rfl rfl rfl rfl

theorem stateExtends_processRow (m : List (Nat × ChapterAcc)) (row : FlatRecord) :
    StateExtends m (processRow m row) := by
  simp only [processRow]
  refine @seqExtends_trans _ (PairExtends ChapterExtends)
    (fun s t w hst htw => @pairExtends_trans _ _ ChapterExtends chapterExtends_trans s t w hst htw)
    _ _ _
    (seqExtends_insertIfAbsent _ (fun p => ⟨rfl, chapterExtends_refl p.2⟩)
      row.ChapterId (newChapter row) _) ?_
  apply seqExtends_updateKey _ chapterExtends_refl
  intro c
  rcases hU : row.UnitId with _ | uid
  · simp only [hU]
    exact chapterExtends_refl c
  · simp only [hU]
    refine ⟨rfl, rfl, rfl, ?_⟩
    refine @seqExtends_trans _ (PairExtends UnitExtends)
      (fun s t w hst htw => @pairExtends_trans _ _ UnitExtends unitExtends_trans s t w hst htw)
      _ _ _
      (seqExtends_insertIfAbsent _ (fun p => ⟨rfl, unitExtends_refl p.2⟩)
        uid (newUnit row uid) _) ?_
    apply seqExtends_updateKey _ unitExtends_refl
    exact unitExtends_unitStep row uid

theorem stateExtends_foldl (rows : List FlatRecord) (m : List (Nat × ChapterAcc)) :
    StateExtends m (rows.foldl processRow m) := by
  induction rows generalizing m with
  | nil => exact stateExtends_refl m
  | cons r rows ih => exact stateExtends_trans (stateExtends_processRow m r) (ih _)

/-! ## Claim C8: the theorem. -/

/-- Claim C8: in every built hierarchy the chapter sequence is non-decreasing
by chapter number and each chapter's unit sequence is non-decreasing by unit
number; every other child sequence (users per unit, activity performances per
user, categories / components / concept elements of each performance tree)
preserves first-seen order from the input, formalised as monotone growth: the
grouping state built from any input prefix is extended pointwise — same
entries with the same keys and scalar fields, in the same positions, with new
entries only appended — by the state built from the whole input
(`StateExtends`). -/
theorem c8_order :
    (∀ l : List FlatRecord,
      (theCourse (getLearningSystemHierarchy l)).chapters.Pairwise
        (fun a b => a.chapterNo ≤ b.chapterNo)) ∧
    (∀ l : List FlatRecord, ∀ ch ∈ (theCourse (getLearningSystemHierarchy l)).chapters,
      ch.units.Pairwise (fun a b => a.unitNo ≤ b.unitNo)) ∧
    (∀ pre post : List FlatRecord,
      StateExtends (buildChaptersMap pre) (buildChaptersMap (pre ++ post))) := by
  haveI i1 : IsTotal ChapterAcc (fun a b => a.chapterNo ≤ b.chapterNo) :=
    ⟨fun a b => le_total a.chapterNo b.chapterNo⟩
  haveI i2 : IsTrans ChapterAcc (fun a b => a.chapterNo ≤ b.chapterNo) :=
    ⟨fun _ _ _ h₁ h₂ => le_trans h₁ h₂⟩
  haveI i3 : IsTotal UnitAcc (fun a b => a.unitNo ≤ b.unitNo) :=
    ⟨fun a b => le_total a.unitNo b.unitNo⟩
  haveI i4 : IsTrans UnitAcc (fun a b => a.unitNo ≤ b.unitNo) :=
    ⟨fun _ _ _ h₁ h₂ => le_trans h₁ h₂⟩
  refine ⟨?_, ?_, ?_⟩
  · intro l
    unfold getLearningSystemHierarchy
    split
    · simp [theCourse]
    · simp only [theCourse, buildCourse]
      have hs : (sortedChapters (buildChaptersMap l)).Pairwise
          (fun a b : ChapterAcc => a.chapterNo ≤ b.chapterNo) :=
        List.sorted_insertionSort _ _
      exact hs.map _ (fun a b h => h)
  · intro l ch hch
    obtain ⟨cacc, rfl⟩ := mem_chapters_eq l ch hch
    simp only [finalizeChapter]
    have hs : (sortedUnits cacc).Pairwise (fun a b : UnitAcc => a.unitNo ≤ b.unitNo) :=
      List.sorted_insertionSort _ _
    exact hs.map _ (fun a b h => h)
  · intro pre post
    unfold buildChaptersMap
    rw [List.foldl_append]
    exact stateExtends_foldl post _

/-! ## Claim C10: duration format/parse round trip. -/

theorem digitChar_digit (n : Nat) : isDigitC (digitChar n) = true := by
  unfold digitChar
  split_ifs <;> decide

theorem digitVal_digitChar (n : Nat) (h : n ≤ 9) : digitVal (digitChar n) = n := by
  interval_cases n <;> decide

theorem isDigitC_ne (c : Char) (h : isDigitC c = true) : c ≠ ':' ∧ c ≠ '-' ∧ c ≠ '.' := by
  refine ⟨?_, ?_, ?_⟩ <;> rintro rfl <;> exact absurd h (by decide)

theorem digitsVal_append (xs : List Char) (c : Char) :
    digitsVal (xs ++ [c]) = digitsVal xs * 10 + digitVal c := by
  simp [digitsVal, List.foldl_append]

theorem natToCharsGo_spec (fuel m : Nat) (h : m ≤ fuel) :
    natToCharsGo fuel m ≠ [] ∧ (∀ c ∈ natToCharsGo fuel m, isDigitC c = true) ∧
      digitsVal (natToCharsGo fuel m) = m := by
  induction fuel generalizing m with
  | zero =>
    have hm : m = 0 := Nat.le_zero.mp h
    subst hm
    refine ⟨by simp [natToCharsGo], ?_, by decide⟩
    intro c hc
    simp only [natToCharsGo, List.mem_singleton] at hc
    subst hc
    exact digitChar_digit _
  | succ fuel ih =>
    unfold natToCharsGo
    split
    · next h10 =>
      refine ⟨by simp, ?_, ?_⟩
      · intro c hc
        simp only [List.mem_singleton] at hc
        subst hc
        exact digitChar_digit _
      · show digitsVal [digitChar m] = m
        have : digitsVal [digitChar m] = digitVal (digitChar m) := by
          simp [digitsVal]
        rw [this, digitVal_digitChar m (by omega)]
    · next h10 =>
      have hlt : m / 10 ≤ fuel := by omega
      obtain ⟨hne, hdig, hval⟩ := ih (m / 10) hlt
      refine ⟨by simp [hne], ?_, ?_⟩
      · intro c hc
        rcases List.mem_append.mp hc with hc | hc
        · exact hdig c hc
        · simp only [List.mem_singleton] at hc
          subst hc
          exact digitChar_digit _
      · rw [digitsVal_append, hval, digitVal_digitChar (m % 10) (by omega)]
        omega

theorem natToChars_spec (n : Nat) :
    natToChars n ≠ [] ∧ (∀ c ∈ natToChars n, isDigitC c = true) ∧
      digitsVal (natToChars n) = n :=
  natToCharsGo_spec n n (le_refl n)

theorem pad2_spec (n : Nat) :
    pad2 n ≠ [] ∧ (∀ c ∈ pad2 n, isDigitC c = true) ∧ digitsVal (pad2 n) = n := by
  obtain ⟨hne, hdig, hval⟩ := natToChars_spec n
  unfold pad2
  split
  · refine ⟨by simp, ?_, ?_⟩
    · intro c hc
      rcases List.mem_cons.mp hc with rfl | hc
      · decide
      · exact hdig c hc
    · show digitsVal ('0' :: natToChars n) = n
      have : digitsVal ('0' :: natToChars n) = digitsVal (natToChars n) := by
        simp [digitsVal, digitVal]
      rw [this, hval]
  · exact ⟨hne, hdig, hval⟩

theorem splitOnChar_of_not_mem (sep : Char) (a : List Char) (ha : sep ∉ a) :
    splitOnChar sep a = [a] := by
  induction a with
  | nil => rfl
  | cons x a ih =>
    have hx : ¬ x = sep := fun h => ha (h ▸ List.mem_cons_self x a)
    have ha2 : sep ∉ a := fun h => ha (List.mem_cons_of_mem x h)
    rw [splitOnChar, if_neg hx, ih ha2]

theorem splitOnChar_append_sep (sep : Char) (a rest : List Char) (ha : sep ∉ a) :
    splitOnChar sep (a ++ sep :: rest) = a :: splitOnChar sep rest := by
  induction a with
  | nil => simp [splitOnChar]
  | cons x a ih =>
    have hx : ¬ x = sep := fun h => ha (h ▸ List.mem_cons_self x a)
    have ha2 : sep ∉ a := fun h => ha (List.mem_cons_of_mem x h)
    rw [List.cons_append, splitOnChar, if_neg hx, ih ha2]

theorem jsNumberChars_digits (cs : List Char) (h1 : cs ≠ [])
    (h2 : ∀ c ∈ cs, isDigitC c = true) :
    jsNumberChars cs = some ((digitsVal cs : Nat) : ℚ) := by
  have hdot : '.' ∉ cs := fun hm => (isDigitC_ne _ (h2 _ hm)).2.2 rfl
  have hcore : jsNumberCore cs = some ((digitsVal cs : Nat) : ℚ) := by
    unfold jsNumberCore
    rw [splitOnChar_of_not_mem '.' cs hdot]
    simp only
    rw [if_pos ⟨h1, List.all_eq_true.mpr h2⟩]
  match cs, h1 with
  | c :: rest, _ =>
    have hcm : ¬ c = '-' := (isDigitC_ne c (h2 c (List.mem_cons_self c rest))).2.1
    rw [jsNumberChars, if_neg hcm]
    exact hcore

theorem floor_toNat_div (a b : Nat) : (⌊(a : ℚ) / (b : ℚ)⌋).toNat = a / b := by
  rw [Int.floor_toNat, Nat.floor_div_eq_div]

theorem floor_int_div (a b : Nat) : (⌊(a : ℚ) / (b : ℚ)⌋ : ℚ) = ((a / b : Nat) : ℚ) := by
  have h0 : (0 : ℚ) ≤ (a : ℚ) / (b : ℚ) := div_nonneg (by positivity) (by positivity)
  have := Int.toNat_of_nonneg (Int.floor_nonneg.mpr h0)
  rw [← this, floor_toNat_div]
  exact_mod_cast rfl

theorem jsMod_natCast (a b : Nat) : jsMod (a : ℚ) (b : ℚ) = ((a % b : Nat) : ℚ) := by
  unfold jsMod
  rcases Nat.eq_zero_or_pos b with hb | hb
  · subst hb
    simp
  · rw [floor_int_div]
    have hq : (b : ℚ) * ((a / b : Nat) : ℚ) + ((a % b : Nat) : ℚ) = (a : ℚ) := by
      exact_mod_cast congrArg (fun n : Nat => (n : ℚ)) (Nat.div_add_mod a b)
    linarith

/-- Claim C10: for every nonnegative integer number of seconds `s`, parsing
the formatted duration round-trips (`parse (format s) = s`); for a negative
or `NaN` input the formatter returns "00:00:00", which parses back to 0. -/
theorem c10_format_parse :
    (∀ s : Nat,
      parseDurationToSeconds (some (formatSecondsToDuration (some (s : ℚ)))) = some (s : ℚ)) ∧
    (∀ q : ℚ, q < 0 → formatSecondsToDuration (some q) = "00:00:00") ∧
    formatSecondsToDuration none = "00:00:00" ∧
    parseDurationToSeconds (some "00:00:00") = some 0 := by
  refine ⟨?_, ?_, rfl, by norm_num +decide [parseDurationToSeconds, splitOnChar,
    jsNumberChars, jsNumberCore, isDigitC, digitsVal, digitVal]⟩
  · intro s
    have hnn : ¬ ((s : ℚ) < 0) := not_lt.mpr (by positivity)
    have e1 : (⌊(s : ℚ) / 3600⌋).toNat = s / 3600 := by
      have := floor_toNat_div s 3600
      push_cast at this
      exact this
    have e2 : jsMod (s : ℚ) 3600 = ((s % 3600 : ℕ) : ℚ) := by
      have := jsMod_natCast s 3600
      push_cast at this
      exact this
    have e3 : (⌊jsMod (s : ℚ) 3600 / 60⌋).toNat = s % 3600 / 60 := by
      rw [e2]
      have := floor_toNat_div (s % 3600) 60
      push_cast at this
      exact this
    have e4 : (⌊jsMod (s : ℚ) 60⌋).toNat = s % 60 := by
      have h60 := jsMod_natCast s 60
      push_cast at h60
      rw [h60, Int.floor_natCast]
      omega
    have hfmt : formatSecondsToDuration (some (s : ℚ)) =
        ⟨pad2 (s / 3600) ++ (':' :: (pad2 (s % 3600 / 60) ++ (':' :: pad2 (s % 60))))⟩ := by
      simp only [formatSecondsToDuration]
      rw [if_neg hnn, e1, e3, e4]
      simp [List.append_assoc, List.cons_append]
    rw [hfmt]
    have hsplit : splitOnChar ':'
        (pad2 (s / 3600) ++ (':' :: (pad2 (s % 3600 / 60) ++ (':' :: pad2 (s % 60))))) =
        [pad2 (s / 3600), pad2 (s % 3600 / 60), pad2 (s % 60)] := by
      have h1 := fun c hc => (isDigitC_ne c ((pad2_spec (s / 3600)).2.1 c hc)).1
      have h2 := fun c hc => (isDigitC_ne c ((pad2_spec (s % 3600 / 60)).2.1 c hc)).1
      have h3 := fun c hc => (isDigitC_ne c ((pad2_spec (s % 60)).2.1 c hc)).1
      rw [splitOnChar_append_sep ':' _ _ (fun hm => h1 ':' hm rfl),
        splitOnChar_append_sep ':' _ _ (fun hm => h2 ':' hm rfl),
        splitOnChar_of_not_mem ':' _ (fun hm => h3 ':' hm rfl)]
    have hmap : (splitOnChar ':'
        (pad2 (s / 3600) ++ (':' :: (pad2 (s % 3600 / 60) ++ (':' :: pad2 (s % 60)))))).map
          jsNumberChars =
        [some ((s / 3600 : ℕ) : ℚ), some ((s % 3600 / 60 : ℕ) : ℚ), some ((s % 60 : ℕ) : ℚ)] := by
      rw [hsplit]
      simp only [List.map]
      rw [jsNumberChars_digits _ (pad2_spec (s / 3600)).1 (pad2_spec (s / 3600)).2.1,
        jsNumberChars_digits _ (pad2_spec (s % 3600 / 60)).1 (pad2_spec (s % 3600 / 60)).2.1,
        jsNumberChars_digits _ (pad2_spec (s % 60)).1 (pad2_spec (s % 60)).2.1,
        (pad2_spec (s / 3600)).2.2, (pad2_spec (s % 3600 / 60)).2.2, (pad2_spec (s % 60)).2.2]
    have hLne : ¬ ((⟨pad2 (s / 3600) ++ (':' :: (pad2 (s % 3600 / 60) ++ (':' :: pad2 (s % 60))))⟩ :
        String).data = []) := by
      show ¬ (pad2 (s / 3600) ++ (':' :: (pad2 (s % 3600 / 60) ++ (':' :: pad2 (s % 60))))) = []
      simp
    simp only [parseDurationToSeconds]
    rw [if_neg hLne]
    rw [hmap]
    have harith : ((s / 3600 : ℕ) : ℚ) * 3600 + ((s % 3600 / 60 : ℕ) : ℚ) * 60 +
        ((s % 60 : ℕ) : ℚ) = (s : ℚ) := by
      have h : (s / 3600) * 3600 + (s % 3600 / 60) * 60 + s % 60 = s := by omega
      exact_mod_cast congrArg (fun n : ℕ => (n : ℚ)) h
    simp [harith]
  · intro q hq
    simp only [formatSecondsToDuration]
    rw [if_pos hq]

set_option maxHeartbeats 4000000 in
/-- Witness for C8 on the Scenario B input (and an input split of it for the
monotone-growth part). -/
theorem c8_witness :
    (theCourse (getLearningSystemHierarchy scenarioB)).chapters.Pairwise
      (fun a b => a.chapterNo ≤ b.chapterNo) ∧
    scenarioBChapterOut.units.Pairwise (fun a b => a.unitNo ≤ b.unitNo) ∧
    StateExtends (buildChaptersMap [rowB1])
      (buildChaptersMap ([rowB1] ++ [rowB2, rowBFill 0, rowBFill 1, rowBFill 2])) :=
  ⟨c8_order.1 scenarioB,
   c8_order.2.1 scenarioB scenarioBChapterOut
    (by
      simp +decide [scenarioBChapterOut, scenarioB, rowB1, rowB2, rowBFill, blankRow,
        theCourse, getLearningSystemHierarchy, buildCourse, buildChaptersMap, processRow,
        insertIfAbsent, updateKey, updateFirst, lookupKey, newChapter, newUnit, newUser, unitStep,
        userStep, courseAverageTimePerUnit, calculateAverageOpt, optSum, parseTimeObjectToSeconds,
        parseDurationToSeconds, splitOnChar, jsNumberChars, jsNumberCore, isDigitC, digitsVal,
        digitVal, timeTruthy, sortedChapters, List.insertionSort, List.orderedInsert,
        finalizeChapter, sortedUnits, finalizeUnit, finalizeUser, unitUsers, avgUnitTimePerUser,
        rawUnitAvgAccuracy, calculateAverage, truncateToDecimals, jsGtB, formatSecondsToDuration,
        jsMod, pad2, natToChars, natToCharsGo, digitChar, natStr, jsString, List.foldl,
        List.flatMap, List.filter, List.filterMap, List.dedup, List.any, List.find?, List.getD,
        List.sum, List.length, List.append, List.headD]),
   c8_order.2.2 [rowB1] [rowB2, rowBFill 0, rowBFill 1, rowBFill 2]⟩

/-- Witness for C10: the negative-input clause at `q = -1` together with the
round trip at `s = 3661` ("01:01:01"). -/
theorem c10_witness :
    formatSecondsToDuration (some (-1)) = "00:00:00" ∧
    parseDurationToSeconds (some (formatSecondsToDuration (some ((3661 : Nat) : ℚ)))) =
      some ((3661 : Nat) : ℚ) :=
  ⟨c10_format_parse.2.1 (-1) (by norm_num), c10_format_parse.1 3661⟩
